import Mathlib

/-!
# Verification development for the telem-test telematics gateway

Shallow embedding, in Lean 4, of the parts of the repository that the
verified properties speak about:

* `src/codec8.js` — the Teltonika Codec 8 / Codec 8 Extended binary
  decoder (`Codec8Decoder`, `decodeCodec8`, `parseIMEI`);
* `src/server/server.js` — the per-connection TCP data handler (login,
  admission, AVL decoding, persistence calls);
* the trips endpoint and `calculateDriverBehavior` from the server's API
  module (the version bundled in `src/server/db.js`, which contains the
  trip segmentation loop, trip metrics and the driver-behavior scorer).

Conventions of the embedding:

* A byte buffer is a `List Nat` (`Bytes`), each entry one byte.
* JavaScript numbers that stay integral are `Int`/`Nat`; values on which
  the source performs fractional arithmetic are `ℚ`.
* `Math.round` is `jsRound` (`⌊x + 1/2⌋`, which is exactly JavaScript's
  round-half-towards-+∞ behaviour).
* Absent object fields (`undefined`) are `Option.none`; JavaScript
  truthiness tests on numbers (`x` falsy iff `undefined`/`0`) are made
  explicit where the source relies on them.
* Device/record timestamps: the source stores ISO-8601 UTC strings and
  converts back with `new Date(ts).getTime()`; since that conversion is an
  order isomorphism onto millisecond epochs, timestamps are embedded
  directly as millisecond integers.
* Exceptions thrown by the decoder and caught by `decodeCodec8` are
  `Except.error` with the message text.
-/

namespace Telem

/-- JavaScript `Math.round`: round half towards positive infinity. -/
def jsRound (q : ℚ) : ℤ := ⌊q + 1/2⌋

abbrev Bytes := List Nat

/-- Big-endian value of the `n` bytes of `d` starting at offset `o`
(missing indices read as 0; the parsers only use it in-bounds). -/
def beValAt (d : Bytes) (o : Nat) : Nat → Nat
  | 0 => 0
  | n + 1 => beValAt d o n * 256 + d.getD (o + n) 0

/-- The `n`-byte slice of `d` starting at `o` (as read by `readBytes`). -/
def sliceGet (d : Bytes) (o n : Nat) : Bytes :=
  (List.range n).map fun i => d.getD (o + i) 0

/-- Big-endian value of a byte list (how the source recombines a raw
slice, e.g. `raw.readUInt16BE(0)` or the two-halves BigInt build). -/
def beListVal (l : Bytes) : Nat := l.foldl (fun a b => a * 256 + b) 0

/-- `readInt32BE`: reinterpret a 32-bit unsigned value as signed. -/
def toSigned32 (v : Nat) : ℤ := if v ≥ 2 ^ 31 then (v : ℤ) - 2 ^ 32 else v

/-! ## The decoder as a family of positional parsers

`Codec8Decoder` keeps a buffer and a mutable `offset`; every primitive
reader checks `offset + n > length` and throws before reading.  We embed
each reader as a function `Bytes → Nat → Except String (α × Nat)`
(input buffer, current offset ↦ error, or value with the new offset). -/

def Parser (α : Type) := Bytes → Nat → Except String (α × Nat)

def ppure {α : Type} (a : α) : Parser α := fun _ o => .ok (a, o)

def pfail {α : Type} (msg : String) : Parser α := fun _ _ => .error msg

def pbind {α β : Type} (p : Parser α) (f : α → Parser β) : Parser β :=
  fun d o =>
    match p d o with
    | .error e => .error e
    | .ok (a, o') => f a d o'

/-- `readUInt8` / `readUInt16` / `readUInt32` / `readUInt64` of the source,
uniformly in the byte count: bounds check, then big-endian value. -/
def readUInt (n : Nat) : Parser Nat := fun d o =>
  if o + n ≤ d.length then .ok (beValAt d o n, o + n)
  else .error "Buffer overflow"

/-- `readBytes(n)` of the source: bounds check, then the raw slice. -/
def readBytesP (n : Nat) : Parser Bytes := fun d o =>
  if o + n ≤ d.length then .ok (sliceGet d o n, o + n)
  else .error "Buffer overflow"

end Telem

namespace Telem

/-! ## Decoded data model -/

/-- The `value` field of a decoded IO element.  Fixed groups of width
1/2/4 store the big-endian number; width-8 groups store the BigInt
rendered as a decimal string (kept here as the number itself); NX items
are either ASCII-decoded (IDs 256/281/385, high bit stripped and NULs
removed, exactly `toString('ascii').replace(/\0/g,'')`) or kept as the
hex rendering of the raw bytes (kept here as the bytes themselves). -/
inductive AvlValue where
  | num (v : Nat)
  | big (v : Nat)
  | ascii (s : Bytes)
  | hex (raw : Bytes)
  deriving DecidableEq, Repr

/-- `getIOName`: the FMC003 IO-element name table of the source. -/
def getIOName (id : Nat) : String :=
  match id with
  | 1 => "Digital Input 1" | 2 => "Digital Input 2" | 3 => "Digital Input 3"
  | 4 => "Digital Input 4" | 5 => "Digital Output 1" | 6 => "Digital Output 2"
  | 9 => "Analog Input 1" | 10 => "Analog Input 2" | 11 => "ICCID"
  | 12 => "Fuel Used GPS" | 13 => "Fuel Rate GPS" | 14 => "Average Fuel Use"
  | 15 => "Eco Score" | 16 => "Total Odometer" | 17 => "Axis X"
  | 18 => "Axis Y" | 19 => "Axis Z" | 21 => "GSM Signal" | 24 => "Speed"
  | 25 => "External Voltage" | 26 => "Internal Battery Voltage"
  | 30 => "Number of DTC" | 66 => "External Voltage (mV)"
  | 67 => "Battery Voltage (mV)" | 68 => "Battery Current (mA)"
  | 69 => "GNSS Status" | 80 => "Data Mode" | 113 => "Battery Level %"
  | 175 => "Auto Geofence" | 181 => "GNSS PDOP" | 182 => "GNSS HDOP"
  | 199 => "Trip Odometer" | 200 => "Sleep Mode" | 205 => "Cell ID"
  | 206 => "Area Code" | 236 => "Alarm" | 237 => "Network Type"
  | 238 => "Operator Code" | 239 => "Ignition" | 240 => "Movement"
  | 241 => "GSM Operator" | 243 => "Green Driving Type"
  | 246 => "Towing Detection" | 247 => "Crash Detection"
  | 249 => "Jamming Detection" | 250 => "Trip" | 251 => "Idling"
  | 252 => "Ignition" | 253 => "Green Driving Value" | 254 => "Over Speeding"
  | 255 => "Geofence Zone" | 256 => "VIN" | 281 => "DOUT 3"
  | 303 => "Instant Movement" | 385 => "Beacon" | 389 => "OBD Total Mileage"
  | 390 => "OBD Fuel Level"
  | _ => "IO_" ++ toString id

structure AvlElement where
  id : Nat
  size : Nat
  value : AvlValue
  raw : Bytes
  name : String
  deriving DecidableEq, Repr

structure IoData where
  eventIoId : Nat
  totalCount : Nat
  elements : List AvlElement
  deriving DecidableEq, Repr

structure GpsRaw where
  longitude : ℚ
  latitude : ℚ
  altitude : Nat
  angle : Nat
  satellites : Nat
  speed : Nat
  deriving DecidableEq, Repr

/-- One decoded AVL record.  The source additionally renders the
timestamp as an ISO string; we keep the raw millisecond value
(`timestampRaw`), from which that rendering is derived. -/
structure AvlRecord where
  timestampMs : Nat
  priority : Nat
  gps : GpsRaw
  io : IoData
  deriving DecidableEq, Repr

structure Packet where
  preamble : Nat
  dataFieldLength : Nat
  codecId : Nat
  numberOfData1 : Nat
  avlRecords : List AvlRecord
  numberOfData2 : Nat
  crc : Nat
  deriving DecidableEq, Repr

/-! ## IO element decoding -/

/-- Value of a fixed-width group element: 1/2/4-byte groups store the
big-endian number, the 8-byte group stores the BigInt (as a string in the
source). -/
def fixedValue (w : Nat) (raw : Bytes) : AvlValue :=
  if w = 8 then .big (beListVal raw) else .num (beListVal raw)

/-- Value of an NX (variable-length) element: ASCII for IDs 256/281/385,
hex string otherwise. -/
def nxValue (id : Nat) (raw : Bytes) : AvlValue :=
  if id = 256 ∨ id = 281 ∨ id = 385 then
    .ascii ((raw.map (· % 128)).filter (· ≠ 0))
  else .hex raw

/-- One count-prefixed fixed-width group body.  The source writes the
four groups as four structurally identical loops differing only in the
value width `w` (and, Codec 8 vs 8E, in the 1- vs 2-byte element ID);
they are modelled by this one parameterized loop. -/
def decodeFixedGroup (ext : Bool) (w : Nat) : Nat → Parser (List AvlElement)
  | 0 => ppure []
  | n + 1 =>
    pbind (readUInt (if ext then 2 else 1)) fun id =>
    pbind (readBytesP w) fun raw =>
    pbind (decodeFixedGroup ext w n) fun rest =>
    ppure ({ id := id, size := w, value := fixedValue w raw, raw := raw,
             name := getIOName id } :: rest)

/-- The NX group body (Codec 8E only): `{2B id, 2B length, payload}`. -/
def decodeNxGroup : Nat → Parser (List AvlElement)
  | 0 => ppure []
  | n + 1 =>
    pbind (readUInt 2) fun id =>
    pbind (readUInt 2) fun len =>
    pbind (readBytesP len) fun raw =>
    pbind (decodeNxGroup n) fun rest =>
    ppure ({ id := id, size := len, value := nxValue id raw, raw := raw,
             name := getIOName id } :: rest)

/-- `decodeIOElementStandard`: 1-byte IDs and counts, four groups. -/
def decodeIOElementStandard : Parser IoData :=
  pbind (readUInt 1) fun eventIoId =>
  pbind (readUInt 1) fun totalCount =>
  pbind (readUInt 1) fun n1 =>
  pbind (decodeFixedGroup false 1 n1) fun g1 =>
  pbind (readUInt 1) fun n2 =>
  pbind (decodeFixedGroup false 2 n2) fun g2 =>
  pbind (readUInt 1) fun n4 =>
  pbind (decodeFixedGroup false 4 n4) fun g4 =>
  pbind (readUInt 1) fun n8 =>
  pbind (decodeFixedGroup false 8 n8) fun g8 =>
  ppure { eventIoId := eventIoId, totalCount := totalCount,
          elements := g1 ++ g2 ++ g4 ++ g8 }

/-- `decodeIOElementExtended`: 2-byte IDs and counts, four fixed groups
plus the NX group. -/
def decodeIOElementExtended : Parser IoData :=
  pbind (readUInt 2) fun eventIoId =>
  pbind (readUInt 2) fun totalCount =>
  pbind (readUInt 2) fun n1 =>
  pbind (decodeFixedGroup true 1 n1) fun g1 =>
  pbind (readUInt 2) fun n2 =>
  pbind (decodeFixedGroup true 2 n2) fun g2 =>
  pbind (readUInt 2) fun n4 =>
  pbind (decodeFixedGroup true 4 n4) fun g4 =>
  pbind (readUInt 2) fun n8 =>
  pbind (decodeFixedGroup true 8 n8) fun g8 =>
  pbind (readUInt 2) fun nx =>
  pbind (decodeNxGroup nx) fun gx =>
  ppure { eventIoId := eventIoId, totalCount := totalCount,
          elements := g1 ++ g2 ++ g4 ++ g8 ++ gx }

/-- `decodeAVLRecord`: timestamp, priority, GPS element, IO element. -/
def decodeAVLRecord (ext : Bool) : Parser AvlRecord :=
  pbind (readUInt 8) fun ts =>
  pbind (readUInt 1) fun priority =>
  pbind (readUInt 4) fun lonRaw =>
  pbind (readUInt 4) fun latRaw =>
  pbind (readUInt 2) fun altitude =>
  pbind (readUInt 2) fun angle =>
  pbind (readUInt 1) fun satellites =>
  pbind (readUInt 2) fun speed =>
  pbind (if ext then decodeIOElementExtended else decodeIOElementStandard) fun io =>
  ppure { timestampMs := ts, priority := priority,
          gps := { longitude := (toSigned32 lonRaw : ℚ) / 10000000,
                   latitude := (toSigned32 latRaw : ℚ) / 10000000,
                   altitude := altitude, angle := angle,
                   satellites := satellites, speed := speed },
          io := io }

/-- The `for (let i = 0; i < numberOfData1; i++)` record loop. -/
def decodeRecords (ext : Bool) : Nat → Parser (List AvlRecord)
  | 0 => ppure []
  | n + 1 =>
    pbind (decodeAVLRecord ext) fun r =>
    pbind (decodeRecords ext n) fun rest =>
    ppure (r :: rest)

/-- Everything `decode()` reads before the trailing `numberOfData2`:
preamble, data field length, codec id (checked against 0x08/0x8E),
record count, records. -/
structure BodyData where
  preamble : Nat
  dataFieldLength : Nat
  codecId : Nat
  numberOfData1 : Nat
  avlRecords : List AvlRecord
  deriving DecidableEq, Repr

def decodeBody : Parser BodyData :=
  pbind (readUInt 4) fun preamble =>
  pbind (readUInt 4) fun dataFieldLength =>
  pbind (readUInt 1) fun codecId =>
  pbind (readUInt 1) fun numberOfData1 =>
  pbind (if codecId = 0x08 then ppure false
         else if codecId = 0x8e then ppure true
         else pfail "Unsupported codec") fun ext =>
  pbind (decodeRecords ext numberOfData1) fun recs =>
  ppure { preamble := preamble, dataFieldLength := dataFieldLength,
          codecId := codecId, numberOfData1 := numberOfData1,
          avlRecords := recs }

/-- `Codec8Decoder.decode`: body, trailing record count, CRC.  (The
source never compares `numberOfData1` with `numberOfData2`, never uses
`dataFieldLength`, and never validates the CRC.) -/
def decodeRun : Parser Packet :=
  pbind decodeBody fun b =>
  pbind (readUInt 1) fun numberOfData2 =>
  pbind (readUInt 4) fun crc =>
  ppure { preamble := b.preamble, dataFieldLength := b.dataFieldLength,
          codecId := b.codecId, numberOfData1 := b.numberOfData1,
          avlRecords := b.avlRecords, numberOfData2 := numberOfData2,
          crc := crc }

/-- `decodeCodec8`: run the decoder from offset 0; a thrown error is
caught and surfaced as the error object `{ error: message }`. -/
def decodeCodec8 (d : Bytes) : Except String Packet :=
  match decodeRun d 0 with
  | .ok (p, _) => .ok p
  | .error e => .error e

/-- `parseIMEI` (identical in `src/codec8.js` and `src/server/server.js`):
2-byte big-endian length that must equal 15, then 15 bytes decoded as
ASCII (Node's `'ascii'` decoding strips the high bit of each byte). -/
def parseIMEI (b : Bytes) : Option Bytes :=
  if b.length < 2 then none
  else if beValAt b 0 2 ≠ 15 then none
  else if b.length < 2 + 15 then none
  else some ((sliceGet b 2 15).map (· % 128))

/-! ## Locality of the decoder

Every reader advances the offset past exactly the bytes it reads, so a
parser run is determined by the buffer's length together with the bytes
between its start and end offsets.  `PLoc` packages the four consequences
used by the claims: monotone offsets, insensitivity to bytes outside the
consumed range, stability under truncation that keeps the consumed range,
and guaranteed failure under truncation into the consumed range. -/

structure PLoc {α : Type} (p : Parser α) : Prop where
  mono : ∀ d o a o', p d o = .ok (a, o') → o ≤ o'
  agree : ∀ d1 d2 o a o', d1.length = d2.length →
    (∀ i, o ≤ i → i < o' → d1.getD i 0 = d2.getD i 0) →
    p d1 o = .ok (a, o') → p d2 o = .ok (a, o')
  takeOk : ∀ d o a o' m, p d o = .ok (a, o') → o' ≤ m →
    p (d.take m) o = .ok (a, o')
  takeErr : ∀ d o a o' m, p d o = .ok (a, o') → o ≤ m → m < o' →
    ∃ e, p (d.take m) o = .error e

theorem getD_take (d : Bytes) (m i : Nat) (h : i < m) :
    (d.take m).getD i 0 = d.getD i 0 := by
  induction d generalizing m i with
  | nil => simp
  | cons a t ih =>
    cases m with
    | zero => omega
    | succ m' =>
      cases i with
      | zero => simp
      | succ i' => simpa using ih m' i' (by omega)

theorem getD_set_ne (d : Bytes) (v : Nat) :
    ∀ i j, i ≠ j → (d.set j v).getD i 0 = d.getD i 0 := by
  induction d with
  | nil => intro i j _; simp
  | cons a t ih =>
    intro i j h
    cases j with
    | zero =>
      cases i with
      | zero => omega
      | succ i' => simp
    | succ j' =>
      cases i with
      | zero => simp
      | succ i' => simpa using ih i' j' (by omega)

theorem getD_set_self (d : Bytes) (j v : Nat) (h : j < d.length) :
    (d.set j v).getD j 0 = v := by
  induction d generalizing j with
  | nil => simp at h
  | cons a t ih =>
    cases j with
    | zero => simp
    | succ j' => simpa using ih j' (by simpa using h)

theorem beValAt_agree {d1 d2 : Bytes} {o : Nat} (n : Nat)
    (h : ∀ i, o ≤ i → i < o + n → d1.getD i 0 = d2.getD i 0) :
    beValAt d1 o n = beValAt d2 o n := by
  induction n with
  | zero => rfl
  | succ k ih =>
    simp only [beValAt]
    rw [ih fun i h1 h2 => h i h1 (by omega), h (o + k) (by omega) (by omega)]

theorem beValAt_take {d : Bytes} {o m : Nat} (n : Nat) (h : o + n ≤ m) :
    beValAt (d.take m) o n = beValAt d o n := by
  induction n with
  | zero => rfl
  | succ k ih =>
    simp only [beValAt]
    rw [ih (by omega), getD_take d m (o + k) (by omega)]

theorem sliceGet_agree {d1 d2 : Bytes} {o : Nat} (n : Nat)
    (h : ∀ i, o ≤ i → i < o + n → d1.getD i 0 = d2.getD i 0) :
    sliceGet d1 o n = sliceGet d2 o n := by
  unfold sliceGet
  induction n with
  | zero => simp
  | succ k ih =>
    rw [List.range_succ]
    simp only [List.map_append, List.map_cons, List.map_nil]
    rw [ih fun i h1 h2 => h i h1 (by omega), h (o + k) (by omega) (by omega)]

theorem sliceGet_take {d : Bytes} {o m : Nat} (n : Nat) (h : o + n ≤ m) :
    sliceGet (d.take m) o n = sliceGet d o n := by
  unfold sliceGet
  induction n with
  | zero => simp
  | succ k ih =>
    rw [List.range_succ]
    simp only [List.map_append, List.map_cons, List.map_nil]
    rw [ih (by omega), getD_take d m (o + k) (by omega)]

theorem ploc_pure {α : Type} (a : α) : PLoc (ppure a) := by
  refine ⟨?_, ?_, ?_, ?_⟩
  · intro d o a' o' h
    simp only [ppure, Except.ok.injEq, Prod.mk.injEq] at h
    omega
  · intro d1 d2 o a' o' _ _ h
    simp only [ppure, Except.ok.injEq, Prod.mk.injEq] at h ⊢
    exact h
  · intro d o a' o' m h _
    simp only [ppure, Except.ok.injEq, Prod.mk.injEq] at h ⊢
    exact h
  · intro d o a' o' m h h1 h2
    simp only [ppure, Except.ok.injEq, Prod.mk.injEq] at h
    omega

theorem ploc_fail {α : Type} (msg : String) : PLoc (pfail (α := α) msg) := by
  refine ⟨?_, ?_, ?_, ?_⟩
  · intro d o a' o' h
    simp [pfail] at h
  · intro d1 d2 o a' o' _ _ h
    simp [pfail] at h
  · intro d o a' o' m h _
    simp [pfail] at h
  · intro d o a' o' m h _ _
    simp [pfail] at h

theorem ploc_readUInt (n : Nat) : PLoc (readUInt n) := by
  refine ⟨?_, ?_, ?_, ?_⟩
  · intro d o a o' h
    unfold readUInt at h
    split at h
    · simp only [Except.ok.injEq, Prod.mk.injEq] at h
      omega
    · simp at h
  · intro d1 d2 o a o' hlen hag h
    unfold readUInt at h ⊢
    split at h
    · simp only [Except.ok.injEq, Prod.mk.injEq] at h
      obtain ⟨rfl, rfl⟩ := h
      rw [if_pos (by omega), beValAt_agree n fun i h1 h2 => hag i h1 (by omega)]
    · simp at h
  · intro d o a o' m h hm
    unfold readUInt at h ⊢
    split at h
    · simp only [Except.ok.injEq, Prod.mk.injEq] at h
      obtain ⟨rfl, rfl⟩ := h
      rw [if_pos (by rw [List.length_take]; omega), beValAt_take n (by omega)]
    · simp at h
  · intro d o a o' m h h1 h2
    unfold readUInt at h ⊢
    split at h
    · simp only [Except.ok.injEq, Prod.mk.injEq] at h
      obtain ⟨rfl, rfl⟩ := h
      exact ⟨_, by rw [if_neg (by rw [List.length_take]; omega)]⟩
    · simp at h

theorem ploc_readBytes (n : Nat) : PLoc (readBytesP n) := by
  refine ⟨?_, ?_, ?_, ?_⟩
  · intro d o a o' h
    unfold readBytesP at h
    split at h
    · simp only [Except.ok.injEq, Prod.mk.injEq] at h
      omega
    · simp at h
  · intro d1 d2 o a o' hlen hag h
    unfold readBytesP at h ⊢
    split at h
    · simp only [Except.ok.injEq, Prod.mk.injEq] at h
      obtain ⟨rfl, rfl⟩ := h
      rw [if_pos (by omega), sliceGet_agree n fun i h1 h2 => hag i h1 (by omega)]
    · simp at h
  · intro d o a o' m h hm
    unfold readBytesP at h ⊢
    split at h
    · simp only [Except.ok.injEq, Prod.mk.injEq] at h
      obtain ⟨rfl, rfl⟩ := h
      rw [if_pos (by rw [List.length_take]; omega), sliceGet_take n (by omega)]
    · simp at h
  · intro d o a o' m h h1 h2
    unfold readBytesP at h ⊢
    split at h
    · simp only [Except.ok.injEq, Prod.mk.injEq] at h
      obtain ⟨rfl, rfl⟩ := h
      exact ⟨_, by rw [if_neg (by rw [List.length_take]; omega)]⟩
    · simp at h

theorem ploc_bind {α β : Type} {p : Parser α} {f : α → Parser β}
    (hp : PLoc p) (hf : ∀ a, PLoc (f a)) : PLoc (pbind p f) := by
  refine ⟨?_, ?_, ?_, ?_⟩
  · intro d o a o' h
    unfold pbind at h
    cases h1 : p d o with
    | error e => rw [h1] at h; cases h
    | ok v =>
      obtain ⟨a1, o1⟩ := v
      rw [h1] at h
      exact le_trans (hp.mono d o a1 o1 h1) ((hf a1).mono d o1 a o' h)
  · intro d1 d2 o a o' hlen hag h
    unfold pbind at h ⊢
    cases h1 : p d1 o with
    | error e => rw [h1] at h; cases h
    | ok v =>
      obtain ⟨a1, o1⟩ := v
      rw [h1] at h
      have ho1 := hp.mono d1 o a1 o1 h1
      have ho2 := (hf a1).mono d1 o1 a o' h
      rw [hp.agree d1 d2 o a1 o1 hlen (fun i hi1 hi2 => hag i hi1 (by omega)) h1]
      exact (hf a1).agree d1 d2 o1 a o' hlen (fun i hi1 hi2 => hag i (by omega) hi2) h
  · intro d o a o' m h hm
    unfold pbind at h ⊢
    cases h1 : p d o with
    | error e => rw [h1] at h; cases h
    | ok v =>
      obtain ⟨a1, o1⟩ := v
      rw [h1] at h
      have ho2 := (hf a1).mono d o1 a o' h
      rw [hp.takeOk d o a1 o1 m h1 (by omega)]
      exact (hf a1).takeOk d o1 a o' m h hm
  · intro d o a o' m h h1 h2
    unfold pbind at h ⊢
    cases hp1 : p d o with
    | error e => rw [hp1] at h; cases h
    | ok v =>
      obtain ⟨a1, o1⟩ := v
      rw [hp1] at h
      by_cases hm1 : m < o1
      · obtain ⟨e, he⟩ := hp.takeErr d o a1 o1 m hp1 h1 hm1
        exact ⟨e, by rw [he]⟩
      · rw [hp.takeOk d o a1 o1 m hp1 (by omega)]
        exact (hf a1).takeErr d o1 a o' m h (by omega) h2

theorem ploc_ite {α : Type} (c : Prop) [Decidable c] {p q : Parser α}
    (hp : PLoc p) (hq : PLoc q) : PLoc (if c then p else q) := by
  split <;> assumption

theorem ploc_fixedGroup (ext : Bool) (w : Nat) :
    ∀ n, PLoc (decodeFixedGroup ext w n) := by
  intro n
  induction n with
  | zero => rw [decodeFixedGroup]; exact ploc_pure _
  | succ k ih =>
    rw [decodeFixedGroup]
    exact ploc_bind (ploc_readUInt _) fun id =>
      ploc_bind (ploc_readBytes _) fun raw =>
        ploc_bind ih fun rest => ploc_pure _

theorem ploc_nxGroup : ∀ n, PLoc (decodeNxGroup n) := by
  intro n
  induction n with
  | zero => rw [decodeNxGroup]; exact ploc_pure _
  | succ k ih =>
    rw [decodeNxGroup]
    exact ploc_bind (ploc_readUInt _) fun id =>
      ploc_bind (ploc_readUInt _) fun len =>
        ploc_bind (ploc_readBytes _) fun raw =>
          ploc_bind ih fun rest => ploc_pure _

theorem ploc_ioStandard : PLoc decodeIOElementStandard := by
  rw [decodeIOElementStandard]
  exact ploc_bind (ploc_readUInt _) fun _ =>
    ploc_bind (ploc_readUInt _) fun _ =>
    ploc_bind (ploc_readUInt _) fun n1 =>
    ploc_bind (ploc_fixedGroup _ _ _) fun _ =>
    ploc_bind (ploc_readUInt _) fun n2 =>
    ploc_bind (ploc_fixedGroup _ _ _) fun _ =>
    ploc_bind (ploc_readUInt _) fun n4 =>
    ploc_bind (ploc_fixedGroup _ _ _) fun _ =>
    ploc_bind (ploc_readUInt _) fun n8 =>
    ploc_bind (ploc_fixedGroup _ _ _) fun _ => ploc_pure _

theorem ploc_ioExtended : PLoc decodeIOElementExtended := by
  rw [decodeIOElementExtended]
  exact ploc_bind (ploc_readUInt _) fun _ =>
    ploc_bind (ploc_readUInt _) fun _ =>
    ploc_bind (ploc_readUInt _) fun n1 =>
    ploc_bind (ploc_fixedGroup _ _ _) fun _ =>
    ploc_bind (ploc_readUInt _) fun n2 =>
    ploc_bind (ploc_fixedGroup _ _ _) fun _ =>
    ploc_bind (ploc_readUInt _) fun n4 =>
    ploc_bind (ploc_fixedGroup _ _ _) fun _ =>
    ploc_bind (ploc_readUInt _) fun n8 =>
    ploc_bind (ploc_fixedGroup _ _ _) fun _ =>
    ploc_bind (ploc_readUInt _) fun nx =>
    ploc_bind (ploc_nxGroup _) fun _ => ploc_pure _

theorem ploc_avlRecord (ext : Bool) : PLoc (decodeAVLRecord ext) := by
  rw [decodeAVLRecord]
  exact ploc_bind (ploc_readUInt _) fun _ =>
    ploc_bind (ploc_readUInt _) fun _ =>
    ploc_bind (ploc_readUInt _) fun _ =>
    ploc_bind (ploc_readUInt _) fun _ =>
    ploc_bind (ploc_readUInt _) fun _ =>
    ploc_bind (ploc_readUInt _) fun _ =>
    ploc_bind (ploc_readUInt _) fun _ =>
    ploc_bind (ploc_readUInt _) fun _ =>
    ploc_bind (ploc_ite _ ploc_ioExtended ploc_ioStandard) fun _ => ploc_pure _

theorem ploc_records (ext : Bool) : ∀ n, PLoc (decodeRecords ext n) := by
  intro n
  induction n with
  | zero => rw [decodeRecords]; exact ploc_pure _
  | succ k ih =>
    rw [decodeRecords]
    exact ploc_bind (ploc_avlRecord ext) fun r =>
      ploc_bind ih fun rest => ploc_pure _

theorem ploc_body : PLoc decodeBody := by
  rw [decodeBody]
  exact ploc_bind (ploc_readUInt _) fun _ =>
    ploc_bind (ploc_readUInt _) fun _ =>
    ploc_bind (ploc_readUInt _) fun codecId =>
    ploc_bind (ploc_readUInt _) fun n1 =>
    ploc_bind (ploc_ite _ (ploc_pure _) (ploc_ite _ (ploc_pure _) (ploc_fail _)))
      fun ext => ploc_bind (ploc_records ext n1) fun _ => ploc_pure _

theorem ploc_run : PLoc decodeRun := by
  rw [decodeRun]
  exact ploc_bind ploc_body fun b =>
    ploc_bind (ploc_readUInt _) fun n2 =>
      ploc_bind (ploc_readUInt _) fun crc => ploc_pure _

/-! ### Inversion of the top-level decoder -/

theorem readUInt_ok {n : Nat} {d : Bytes} {o v o' : Nat} :
    readUInt n d o = .ok (v, o') ↔
      o + n ≤ d.length ∧ v = beValAt d o n ∧ o' = o + n := by
  unfold readUInt
  split
  · rename_i hle
    constructor
    · intro h
      simp only [Except.ok.injEq, Prod.mk.injEq] at h
      exact ⟨hle, h.1.symm, h.2.symm⟩
    · rintro ⟨-, rfl, rfl⟩
      rfl
  · rename_i hle
    constructor
    · intro h
      simp at h
    · rintro ⟨hc, -, -⟩
      exact absurd hc hle

theorem ppure_ok {α : Type} {a b : α} {d : Bytes} {o o' : Nat} :
    ppure a d o = .ok (b, o') ↔ b = a ∧ o' = o := by
  simp only [ppure, Except.ok.injEq, Prod.mk.injEq]
  constructor
  · rintro ⟨rfl, rfl⟩; exact ⟨rfl, rfl⟩
  · rintro ⟨rfl, rfl⟩; exact ⟨rfl, rfl⟩

theorem pbind_ok {α β : Type} {p : Parser α} {f : α → Parser β} {d : Bytes}
    {o : Nat} {b : β} {o' : Nat} :
    pbind p f d o = .ok (b, o') ↔
      ∃ a o1, p d o = .ok (a, o1) ∧ f a d o1 = .ok (b, o') := by
  unfold pbind
  cases h : p d o with
  | error e => simp
  | ok v =>
    obtain ⟨a, o1⟩ := v
    constructor
    · intro hf
      exact ⟨a, o1, rfl, hf⟩
    · rintro ⟨a', o1', h1, h2⟩
      simp only [Except.ok.injEq, Prod.mk.injEq] at h1
      obtain ⟨rfl, rfl⟩ := h1
      exact h2

theorem decodeRun_inv {d : Bytes} {p : Packet} {e : Nat}
    (h : decodeRun d 0 = .ok (p, e)) :
    ∃ b o1,
      decodeBody d 0 = .ok (b, o1) ∧
      o1 + 5 ≤ d.length ∧
      e = o1 + 5 ∧
      p = { preamble := b.preamble, dataFieldLength := b.dataFieldLength,
            codecId := b.codecId, numberOfData1 := b.numberOfData1,
            avlRecords := b.avlRecords, numberOfData2 := beValAt d o1 1,
            crc := beValAt d (o1 + 1) 4 } := by
  unfold decodeRun at h
  rw [pbind_ok] at h
  obtain ⟨b, o1, hb, h⟩ := h
  rw [pbind_ok] at h
  obtain ⟨n2, o2, hn2, h⟩ := h
  rw [pbind_ok] at h
  obtain ⟨crc, o3, hcrc, h⟩ := h
  rw [ppure_ok] at h
  obtain ⟨rfl, rfl⟩ := h
  rw [readUInt_ok] at hn2 hcrc
  obtain ⟨hle2, rfl, rfl⟩ := hn2
  obtain ⟨hle3, rfl, rfl⟩ := hcrc
  exact ⟨b, o1, hb, by omega, by omega, rfl⟩

theorem decodeCodec8_ok {d : Bytes} {p : Packet} :
    decodeCodec8 d = .ok p ↔ ∃ e, decodeRun d 0 = .ok (p, e) := by
  unfold decodeCodec8
  cases h : decodeRun d 0 with
  | error e => simp
  | ok v =>
    obtain ⟨p', e'⟩ := v
    simp only [Except.ok.injEq]
    constructor
    · rintro rfl
      exact ⟨e', rfl⟩
    · rintro ⟨e, he⟩
      simp only [Except.ok.injEq, Prod.mk.injEq] at he
      exact he.1

/-- Success of the decoder transfers along buffers of equal length that
agree below the last four bytes; everything except the CRC field of the
result transfers with it. -/
theorem decode_transfer {d1 d2 : Bytes} (hlen : d1.length = d2.length)
    (hag : ∀ i, i < d1.length - 4 → d1.getD i 0 = d2.getD i 0)
    {p : Packet} {e : Nat} (h : decodeRun d1 0 = .ok (p, e)) :
    decodeRun d2 0 = .ok ({ p with crc := beValAt d2 (e - 4) 4 }, e) := by
  obtain ⟨b, o1, hb, hle, rfl, rfl⟩ := decodeRun_inv h
  have hb2 : decodeBody d2 0 = .ok (b, o1) :=
    ploc_body.agree d1 d2 0 b o1 hlen
      (fun i _ hi2 => hag i (by omega)) hb
  unfold decodeRun
  rw [pbind_ok]
  refine ⟨b, o1, hb2, ?_⟩
  rw [pbind_ok]
  refine ⟨beValAt d2 o1 1, o1 + 1, by rw [readUInt_ok]; exact ⟨by omega, rfl, rfl⟩, ?_⟩
  rw [pbind_ok]
  refine ⟨beValAt d2 (o1 + 1) 4, o1 + 5,
    by rw [readUInt_ok]; exact ⟨by omega, rfl, by omega⟩, ?_⟩
  rw [ppure_ok]
  have hn2 : beValAt d2 o1 1 = beValAt d1 o1 1 :=
    (beValAt_agree 1 fun i hi1 hi2 => hag i (by omega)).symm
  constructor
  · have h45 : o1 + 5 - 4 = o1 + 1 := by omega
    rw [h45, hn2]
  · rfl

/-! ### Concrete frames used by the codec claims -/

/-- A 15-byte Codec 8 frame: preamble 0, dataFieldLength 1, codec 0x08,
`numberOfData1 = 0`, no records, trailing `numberOfData2 = 1`, CRC 0.
Its two record counts disagree, yet every read is in bounds and the
decoder consumes it exactly. -/
def frame0 : Bytes := [0, 0, 0, 0, 0, 0, 0, 1, 8, 0, 1, 0, 0, 0, 0]

/-- The packet `decodeCodec8` returns for `frame0`. -/
def pkt0 : Packet :=
  { preamble := 0, dataFieldLength := 1, codecId := 8, numberOfData1 := 0,
    avlRecords := [], numberOfData2 := 1, crc := 0 }

/-- `frame0` with its final CRC byte changed. -/
def frame0crc : Bytes := [0, 0, 0, 0, 0, 0, 0, 1, 8, 0, 1, 0, 0, 0, 9]

/-- The packet `decodeCodec8` returns for `frame0crc`. -/
def pkt0crc : Packet := { pkt0 with crc := 9 }

/-! ### Claim theorems for the codec -/

/-- C1 (counterexample): `decodeCodec8` on the concrete frame `frame0`,
whose decoded `numberOfData1` (0) differs from its trailing
`numberOfData2` byte (1), returns a decoded packet rather than a decode
error — refuting the claim that a count mismatch always yields an
error. -/
theorem c1_count_mismatch_decodes_ok :
    decodeCodec8 frame0 = .ok pkt0 ∧ pkt0.numberOfData1 ≠ pkt0.numberOfData2 := by
  constructor
  · rfl
  · decide

/-- C1 (amended): `decodeCodec8` performs no count-agreement check at
all.  Whenever a buffer decodes successfully (final offset `e`),
replacing the trailing-count byte (position `e - 5`) by any value `v`
still decodes successfully, with the same records and CRC and with
`numberOfData2 = v`; in particular a mismatch between the two counts
never causes a decode error. -/
theorem c1_trailing_count_never_checked (d : Bytes) (p : Packet) (e v : Nat)
    (h : decodeRun d 0 = .ok (p, e)) :
    decodeRun (d.set (e - 5) v) 0 = .ok ({ p with numberOfData2 := v }, e) ∧
    decodeCodec8 (d.set (e - 5) v) = .ok { p with numberOfData2 := v } := by
  obtain ⟨b, o1, hb, hle, rfl, rfl⟩ := decodeRun_inv h
  have h5 : o1 + 5 - 5 = o1 := by omega
  rw [h5]
  have hlen : d.length = (d.set o1 v).length := (List.length_set d o1 v).symm
  have hb2 : decodeBody (d.set o1 v) 0 = .ok (b, o1) :=
    ploc_body.agree d (d.set o1 v) 0 b o1 hlen
      (fun i _ hi2 => (getD_set_ne d v i o1 (by omega)).symm) hb
  have hrun : decodeRun (d.set o1 v) 0 =
      .ok ({ preamble := b.preamble, dataFieldLength := b.dataFieldLength,
             codecId := b.codecId, numberOfData1 := b.numberOfData1,
             avlRecords := b.avlRecords, numberOfData2 := v,
             crc := beValAt d (o1 + 1) 4 }, o1 + 5) := by
    unfold decodeRun
    rw [pbind_ok]
    refine ⟨b, o1, hb2, ?_⟩
    rw [pbind_ok]
    refine ⟨v, o1 + 1, ?_, ?_⟩
    · rw [readUInt_ok]
      refine ⟨by omega, ?_, rfl⟩
      show v = beValAt (d.set o1 v) o1 1
      simp only [beValAt]
      rw [Nat.add_zero, getD_set_self d o1 v (by omega)]
      omega
    · rw [pbind_ok]
      refine ⟨beValAt d (o1 + 1) 4, o1 + 5, ?_, ?_⟩
      · rw [readUInt_ok]
        refine ⟨by omega, ?_, by omega⟩
        exact beValAt_agree 4 fun i hi1 hi2 =>
          (getD_set_ne d v i o1 (by omega)).symm
      · rw [ppure_ok]
        exact ⟨rfl, rfl⟩
  refine ⟨hrun, ?_⟩
  rw [decodeCodec8_ok]
  exact ⟨o1 + 5, hrun⟩

/-- C1 (witness for the amended theorem): instantiated on `frame0`,
changing its trailing count byte (position 10) to 7. -/
theorem c1_trailing_count_never_checked_witness :
    decodeRun (frame0.set 10 7) 0 = .ok ({ pkt0 with numberOfData2 := 7 }, 15) ∧
    decodeCodec8 (frame0.set 10 7) = .ok { pkt0 with numberOfData2 := 7 } := by
  have h := c1_trailing_count_never_checked frame0 pkt0 15 7 (by rfl)
  exact h

/-- C8: every primitive reader succeeds only when its read lies entirely
inside the buffer (`offset + n ≤ length`), and for every buffer that is
a proper prefix of a well-formed frame — a frame the decoder accepts
consuming exactly its length — `decodeCodec8` returns a decode error. -/
theorem c8_bounded_reads_and_short_frames_fail :
    (∀ n d o v o', readUInt n d o = .ok (v, o') → o + n ≤ d.length) ∧
    (∀ n d o bs o', readBytesP n d o = .ok (bs, o') → o + n ≤ d.length) ∧
    (∀ (b : Bytes) (p : Packet), decodeRun b 0 = .ok (p, b.length) →
      ∀ m, m < b.length → ∃ msg, decodeCodec8 (b.take m) = .error msg) := by
  refine ⟨?_, ?_, ?_⟩
  · intro n d o v o' h
    exact (readUInt_ok.mp h).1
  · intro n d o bs o' h
    unfold readBytesP at h
    split at h
    · assumption
    · simp at h
  · intro b p hwf m hm
    obtain ⟨msg, herr⟩ := ploc_run.takeErr b 0 p b.length m hwf (Nat.zero_le m) hm
    refine ⟨msg, ?_⟩
    unfold decodeCodec8
    rw [herr]

/-- C8 (witness): the reader bound at a concrete successful read, and the
prefix failure on the first 14 bytes of the well-formed 15-byte frame
`frame0`. -/
theorem c8_bounded_reads_and_short_frames_fail_witness :
    (0 + 2 ≤ ([0, 0] : Bytes).length) ∧
    (∃ msg, decodeCodec8 (frame0.take 14) = .error msg) := by
  constructor
  · exact c8_bounded_reads_and_short_frames_fail.1 2 [0, 0] 0 0 2 (by rfl)
  · exact c8_bounded_reads_and_short_frames_fail.2.2 frame0 pkt0 (by rfl) 14
      (by decide)

/-- C9: the decoder never validates the CRC.  For any two buffers of the
same length that agree everywhere below the final four bytes, decoding
fails on both or succeeds on both, and on success the decoded AVL
records (indeed every field except the CRC) are identical. -/
theorem c9_crc_never_validated (d1 d2 : Bytes)
    (hlen : d1.length = d2.length)
    (hag : ∀ i, i < d1.length - 4 → d1.getD i 0 = d2.getD i 0) :
    ((∃ p, decodeCodec8 d1 = .ok p) ↔ (∃ p, decodeCodec8 d2 = .ok p)) ∧
    (∀ p1 p2, decodeCodec8 d1 = .ok p1 → decodeCodec8 d2 = .ok p2 →
      p1.avlRecords = p2.avlRecords ∧ p1.numberOfData1 = p2.numberOfData1 ∧
      p1.numberOfData2 = p2.numberOfData2) := by
  have hag' : ∀ i, i < d2.length - 4 → d2.getD i 0 = d1.getD i 0 :=
    fun i hi => (hag i (by omega)).symm
  constructor
  · constructor
    · rintro ⟨p, hp⟩
      rw [decodeCodec8_ok] at hp
      obtain ⟨e, he⟩ := hp
      exact ⟨_, decodeCodec8_ok.mpr ⟨e, decode_transfer hlen hag he⟩⟩
    · rintro ⟨p, hp⟩
      rw [decodeCodec8_ok] at hp
      obtain ⟨e, he⟩ := hp
      exact ⟨_, decodeCodec8_ok.mpr ⟨e, decode_transfer hlen.symm hag' he⟩⟩
  · intro p1 p2 h1 h2
    rw [decodeCodec8_ok] at h1 h2
    obtain ⟨e1, he1⟩ := h1
    obtain ⟨e2, he2⟩ := h2
    have ht := decode_transfer hlen hag he1
    rw [ht] at he2
    simp only [Except.ok.injEq, Prod.mk.injEq] at he2
    obtain ⟨rfl, -⟩ := he2
    exact ⟨rfl, rfl, rfl⟩

/-- C9 (witness): instantiated on `frame0` and `frame0crc`, which differ
only in the last CRC byte: both decode, and all fields except the CRC
agree. -/
theorem c9_crc_never_validated_witness :
    (∃ p, decodeCodec8 frame0crc = .ok p) ∧
    pkt0.avlRecords = pkt0crc.avlRecords ∧
    pkt0.numberOfData1 = pkt0crc.numberOfData1 ∧
    pkt0.numberOfData2 = pkt0crc.numberOfData2 := by
  have h := c9_crc_never_validated frame0 frame0crc (by decide) (by decide)
  refine ⟨h.1.mp ⟨pkt0, by rfl⟩, ?_⟩
  exact h.2 pkt0 pkt0crc (by rfl) (by rfl)

/-- C10: `parseIMEI` returns a value exactly when the buffer has at
least 17 bytes and its first two bytes, read big-endian, equal 15; the
value is then the ASCII decoding (high bit stripped) of bytes 2–16,
with no requirement that those bytes be decimal digits. -/
theorem c10_parseIMEI_shape (b : Bytes) :
    ((parseIMEI b).isSome ↔ 17 ≤ b.length ∧ beValAt b 0 2 = 15) ∧
    (∀ s, parseIMEI b = some s → s = (sliceGet b 2 15).map (· % 128)) := by
  unfold parseIMEI
  constructor
  · split_ifs with h1 h2 h3
    · simp only [Option.isSome_none, Bool.false_eq_true, false_iff]
      omega
    · simp only [Option.isSome_none, Bool.false_eq_true, false_iff]
      intro hc
      exact h2 hc.2
    · simp only [Option.isSome_none, Bool.false_eq_true, false_iff]
      omega
    · simp only [Option.isSome_some, true_iff]
      exact ⟨by omega, not_not.mp h2⟩
  · intro s hs
    split_ifs at hs with h1 h2 h3
    exact (Option.some_inj.mp hs).symm

/-- C10 (witness): a buffer whose 15 payload bytes are all `'A'` (0x41,
not a digit) is accepted, and the returned "IMEI" is those bytes. -/
theorem c10_parseIMEI_shape_witness :
    (parseIMEI ([0, 15] ++ List.replicate 15 65)).isSome ∧
    (∀ s, parseIMEI ([0, 15] ++ List.replicate 15 65) = some s →
      s = (sliceGet ([0, 15] ++ List.replicate 15 65) 2 15).map (· % 128)) ∧
    parseIMEI ([0, 15] ++ List.replicate 15 65) = some (List.replicate 15 65) := by
  refine ⟨?_, ?_, ?_⟩
  · exact (c10_parseIMEI_shape ([0, 15] ++ List.replicate 15 65)).1.mpr (by decide)
  · exact (c10_parseIMEI_shape ([0, 15] ++ List.replicate 15 65)).2
  · decide

/-! ## The TCP session data handler (`src/server/server.js`)

The `socket.on('data', ...)` handler of `startServer` keeps three
per-connection variables (`deviceIMEI`, `deviceVIN`, `deviceType`) and,
per received buffer, either processes a login frame (reply `0x01` and
remember the IMEI, or reply `0x00` and destroy the socket) or decodes an
AVL frame and issues the persistence calls (`upsertDevice`,
`saveRawData`, `saveRecords`) and the 4-byte ack.  The embedding records
each store call with its arguments instead of performing it; the device
document is modelled by the only field the handler's control flow reads,
`approved` (`none` = field absent), other fields appearing only inside
log lines. -/

structure Device where
  approved : Option Bool
  deriving DecidableEq, Repr

/-- `CODEC_DEVICE_MAP[codecId] || 'UNKNOWN'`. -/
def getDeviceType (codecId : Nat) : String :=
  if codecId = 0x08 then "FMC003"
  else if codecId = 0x8e then "FMC003"
  else "UNKNOWN"

/-- JavaScript truthiness of a decoded IO element value (`0` and the
empty string are falsy; the 8-byte values are decimal strings, hence
always truthy). -/
def avlTruthy : AvlValue → Bool
  | .num v => v != 0
  | .big _ => true
  | .ascii s => !s.isEmpty
  | .hex r => !r.isEmpty

def vinTruthy : Option AvlValue → Bool
  | none => false
  | some v => avlTruthy v

/-- `extractVIN`: the value of the first IO element with ID 256. -/
def extractVIN (io : IoData) : Option AvlValue :=
  (io.elements.find? (fun e => e.id == 256)).map (·.value)

/-- Per-connection mutable state of the data handler. -/
structure SessionSt where
  deviceIMEI : Option Bytes
  deviceVIN : Option AvlValue
  deviceType : Option String
  deriving DecidableEq, Repr

/-- Arguments of a `saveRawData` call. -/
structure RawSave where
  imei : Option Bytes
  vin : Option AvlValue
  rawHex : Bytes
  deviceType : String
  deriving DecidableEq, Repr

/-- Arguments of a `saveRecords` call. -/
structure RecSave where
  imei : Option Bytes
  vin : Option AvlValue
  deviceType : String
  records : List AvlRecord
  deriving DecidableEq, Repr

/-- Arguments of an `upsertDevice` call. -/
structure UpsertCall where
  imei : Option Bytes
  vin : Option AvlValue
  deviceType : String
  deriving DecidableEq, Repr

/-- Observable effects of one `data` event. -/
structure HandlerOut where
  st : SessionSt
  reply : Option Bytes
  closed : Bool
  upserted : Option UpsertCall
  savedRaw : Option RawSave
  savedRecords : Option RecSave
  deriving DecidableEq, Repr

/-- The 4-byte big-endian AVL ack (`ack.writeUInt32BE(numberOfData1)`). -/
def ackBytes (n : Nat) : Bytes :=
  [n / 2 ^ 24 % 256, n / 2 ^ 16 % 256, n / 2 ^ 8 % 256, n % 256]

/-- One step of the `socket.on('data', ...)` handler, given the store's
`getDevice` lookup. -/
def handleData (getDevice : Bytes → Option Device) (st : SessionSt)
    (buffer : Bytes) : HandlerOut :=
  match parseIMEI buffer with
  | some imei =>
    match getDevice imei with
    | none =>
      { st := st, reply := some [0x00], closed := true,
        upserted := none, savedRaw := none, savedRecords := none }
    | some device =>
      if device.approved = some false then
        { st := st, reply := some [0x00], closed := true,
          upserted := none, savedRaw := none, savedRecords := none }
      else
        { st := { st with deviceIMEI := some imei }, reply := some [0x01],
          closed := false, upserted := none, savedRaw := none,
          savedRecords := none }
  | none =>
    match decodeCodec8 buffer with
    | .error _ =>
      { st := st, reply := none, closed := false,
        upserted := none, savedRaw := none, savedRecords := none }
    | .ok decoded =>
      let dtype := getDeviceType decoded.codecId
      let vin :=
        match decoded.avlRecords with
        | [] => st.deviceVIN
        | r :: _ =>
          if vinTruthy st.deviceVIN then st.deviceVIN else extractVIN r.io
      { st := { st with deviceVIN := vin, deviceType := some dtype },
        reply := some (ackBytes decoded.numberOfData1),
        closed := false,
        upserted := some { imei := st.deviceIMEI, vin := vin, deviceType := dtype },
        savedRaw := some { imei := st.deviceIMEI, vin := vin,
                           rawHex := buffer, deviceType := dtype },
        savedRecords :=
          if decoded.avlRecords.isEmpty then none
          else some { imei := st.deviceIMEI, vin := vin, deviceType := dtype,
                      records := decoded.avlRecords } }

/-- The fresh session state of a new connection. -/
def freshSession : SessionSt := { deviceIMEI := none, deviceVIN := none, deviceType := none }

/-- A store with no devices at all. -/
def emptyStore : Bytes → Option Device := fun _ => none

/-- A 45-byte Codec 8 frame holding one (all-zero) AVL record. -/
def frame1 : Bytes :=
  [0, 0, 0, 0, 0, 0, 0, 33, 8, 1] ++
  [0, 0, 0, 0, 0, 0, 0, 0, 0] ++
  [0, 0, 0, 0, 0, 0, 0, 0, 0, 0, 0, 0, 0, 0, 0] ++
  [0, 0, 0, 0, 0, 0] ++
  [1] ++ [0, 0, 0, 0]

/-- The record `decodeCodec8` extracts from `frame1`. -/
def rec1 : AvlRecord :=
  { timestampMs := 0, priority := 0,
    gps := { longitude := (toSigned32 0 : ℚ) / 10000000,
             latitude := (toSigned32 0 : ℚ) / 10000000,
             altitude := 0, angle := 0, satellites := 0, speed := 0 },
    io := { eventIoId := 0, totalCount := 0, elements := [] } }

/-- The 15 ASCII digits `'1'` as an IMEI, and its login frame. -/
def imeiOnes : Bytes := List.replicate 15 49

def loginOnes : Bytes := [0, 15] ++ imeiOnes

/-- A store that knows `imeiOnes` but whose document has no `approved`
field at all (as produced by `upsertDevice`, whose `$set`/`$setOnInsert`
never write `approved`). -/
def storeNoApproved : Bytes → Option Device :=
  fun i => if i = imeiOnes then some { approved := none } else none

/-- Branch equation: login frame, IMEI unknown to the store. -/
theorem handleData_login_unknown {g : Bytes → Option Device} {st : SessionSt}
    {b imei : Bytes} (h : parseIMEI b = some imei) (hg : g imei = none) :
    handleData g st b =
      { st := st, reply := some [0x00], closed := true,
        upserted := none, savedRaw := none, savedRecords := none } := by
  simp only [handleData, h, hg]

/-- Branch equation: login frame, device present with `approved: false`. -/
theorem handleData_login_denied {g : Bytes → Option Device} {st : SessionSt}
    {b imei : Bytes} {device : Device} (h : parseIMEI b = some imei)
    (hg : g imei = some device) (ha : device.approved = some false) :
    handleData g st b =
      { st := st, reply := some [0x00], closed := true,
        upserted := none, savedRaw := none, savedRecords := none } := by
  simp only [handleData, h, hg, ha, if_pos]

/-- Branch equation: login frame, device present without `approved: false`. -/
theorem handleData_login_ok {g : Bytes → Option Device} {st : SessionSt}
    {b imei : Bytes} {device : Device} (h : parseIMEI b = some imei)
    (hg : g imei = some device) (ha : device.approved ≠ some false) :
    handleData g st b =
      { st := { st with deviceIMEI := some imei }, reply := some [0x01],
        closed := false, upserted := none, savedRaw := none,
        savedRecords := none } := by
  simp only [handleData, h, hg, if_neg ha]

/-- Branch equation: non-login frame that fails to decode. -/
theorem handleData_avl_err {g : Bytes → Option Device} {st : SessionSt}
    {b : Bytes} {e : String} (h : parseIMEI b = none)
    (hd : decodeCodec8 b = .error e) :
    handleData g st b =
      { st := st, reply := none, closed := false,
        upserted := none, savedRaw := none, savedRecords := none } := by
  simp only [handleData, h, hd]

/-- Branch equation: non-login frame that decodes. -/
theorem handleData_avl_ok {g : Bytes → Option Device} {st : SessionSt}
    {b : Bytes} {decoded : Packet} (h : parseIMEI b = none)
    (hd : decodeCodec8 b = .ok decoded) :
    handleData g st b =
      (let dtype := getDeviceType decoded.codecId
       let vin :=
         match decoded.avlRecords with
         | [] => st.deviceVIN
         | r :: _ =>
           if vinTruthy st.deviceVIN then st.deviceVIN else extractVIN r.io
       { st := { st with deviceVIN := vin, deviceType := some dtype },
         reply := some (ackBytes decoded.numberOfData1),
         closed := false,
         upserted := some { imei := st.deviceIMEI, vin := vin, deviceType := dtype },
         savedRaw := some { imei := st.deviceIMEI, vin := vin,
                            rawHex := b, deviceType := dtype },
         savedRecords :=
           if decoded.avlRecords.isEmpty then none
           else some { imei := st.deviceIMEI, vin := vin, deviceType := dtype,
                       records := decoded.avlRecords } }) := by
  simp only [handleData, h, hd]

/-- C2 (counterexample): a connection that never logged in sends the
decodable AVL frame `frame1`; the handler still calls `saveRecords`,
with a `null` IMEI and the decoded record — records are persisted with
no login at all. -/
theorem c2_records_saved_without_login :
    (handleData emptyStore freshSession frame1).savedRecords =
      some { imei := none, vin := none, deviceType := "FMC003",
             records := [rec1] } ∧
    (handleData emptyStore freshSession frame1).savedRecords ≠ none := by
  have heq : (handleData emptyStore freshSession frame1).savedRecords =
      some { imei := none, vin := none, deviceType := "FMC003",
             records := [rec1] } := rfl
  refine ⟨heq, ?_⟩
  intro h
  rw [heq] at h
  cases h

/-- C2 (amended): the handler persists a record batch exactly when the
incoming buffer is not a login frame, decodes successfully, and holds at
least one record — regardless of any login having happened; the
persisted IMEI is whatever the session currently holds (`null` when no
login ever succeeded), and the persisted records are the decoded ones. -/
theorem c2_persistence_ignores_login (g : Bytes → Option Device)
    (st : SessionSt) (b : Bytes) :
    ((handleData g st b).savedRecords ≠ none ↔
      parseIMEI b = none ∧ ∃ p, decodeCodec8 b = .ok p ∧ p.avlRecords ≠ []) ∧
    (∀ s, (handleData g st b).savedRecords = some s →
      s.imei = st.deviceIMEI ∧ ∃ p, decodeCodec8 b = .ok p ∧ s.records = p.avlRecords) := by
  cases hp : parseIMEI b with
  | some imei =>
    have hnone : (handleData g st b).savedRecords = none := by
      cases hg : g imei with
      | none => rw [handleData_login_unknown hp hg]
      | some device =>
        by_cases ha : device.approved = some false
        · rw [handleData_login_denied hp hg ha]
        · rw [handleData_login_ok hp hg ha]
    rw [hnone]
    refine ⟨by simp [hp], ?_⟩
    intro s hs
    cases hs
  | none =>
    cases hd : decodeCodec8 b with
    | error e =>
      rw [handleData_avl_err hp hd]
      refine ⟨?_, ?_⟩
      · simp only [ne_eq, not_true_eq_false, false_iff, not_and]
        rintro - ⟨p, hp2, -⟩
        cases hp2
      · intro s hs
        cases hs
    | ok decoded =>
      rw [handleData_avl_ok hp hd]
      cases hrec : decoded.avlRecords with
      | nil =>
        refine ⟨?_, ?_⟩
        · simp only [hrec, List.isEmpty_nil, if_pos, ne_eq, not_true_eq_false,
            false_iff, not_and]
          rintro - ⟨p, hp2, hne⟩
          simp only [Except.ok.injEq] at hp2
          subst hp2
          exact hne hrec
        · intro s hs
          simp only [hrec, List.isEmpty_nil, if_pos] at hs
          cases hs
      | cons r rs =>
        refine ⟨?_, ?_⟩
        · simp only [hrec, List.isEmpty_cons, Bool.false_eq_true, if_neg,
            ne_eq, reduceCtorEq, not_false_eq_true, true_iff]
          exact ⟨trivial, decoded, rfl, by rw [hrec]; simp⟩
        · intro s hs
          simp only [hrec, List.isEmpty_cons, Bool.false_eq_true, if_false,
            Option.some.injEq] at hs
          subst hs
          exact ⟨rfl, decoded, rfl, hrec.symm⟩

/-- C2 (witness for the amended theorem): on `frame1` with an empty
store and a fresh session. -/
theorem c2_persistence_ignores_login_witness :
    ((handleData emptyStore freshSession frame1).savedRecords ≠ none ↔
      parseIMEI frame1 = none ∧
        ∃ p, decodeCodec8 frame1 = .ok p ∧ p.avlRecords ≠ []) ∧
    (∀ s, (handleData emptyStore freshSession frame1).savedRecords = some s →
      s.imei = freshSession.deviceIMEI ∧
        ∃ p, decodeCodec8 frame1 = .ok p ∧ s.records = p.avlRecords) :=
  c2_persistence_ignores_login emptyStore freshSession frame1

/-- C3 (counterexample): a login for an IMEI whose stored document has no
`approved` field is accepted with `0x01` and the session proceeds — the
claim requires `approved = true`, so this refutes it. -/
theorem c3_absent_approved_accepted :
    (handleData storeNoApproved freshSession loginOnes).reply = some [1] ∧
    (handleData storeNoApproved freshSession loginOnes).closed = false ∧
    (handleData storeNoApproved freshSession loginOnes).st.deviceIMEI =
      some imeiOnes ∧
    (storeNoApproved imeiOnes).map Device.approved = some none := by
  refine ⟨rfl, rfl, rfl, rfl⟩

/-- C3 (amended): on a valid login frame the session replies `0x01` and
proceeds if and only if `getDevice(imei)` returns a device whose
`approved` field is not strictly equal to `false` (absent `approved`
accepted); otherwise it replies `0x00` and closes.  Either way the login
branch persists nothing. -/
theorem c3_login_rejects_only_explicit_false (g : Bytes → Option Device)
    (st : SessionSt) (b imei : Bytes) (h : parseIMEI b = some imei) :
    ((handleData g st b).reply = some [1] ↔
      ∃ d, g imei = some d ∧ d.approved ≠ some false) ∧
    ((handleData g st b).reply = some [1] →
      (handleData g st b).closed = false ∧
      (handleData g st b).st = { st with deviceIMEI := some imei }) ∧
    ((handleData g st b).reply ≠ some [1] →
      (handleData g st b).reply = some [0] ∧ (handleData g st b).closed = true) ∧
    (handleData g st b).savedRecords = none ∧ (handleData g st b).savedRaw = none := by
  cases hg : g imei with
  | none =>
    rw [handleData_login_unknown h hg]
    refine ⟨?_, ?_, ?_, rfl, rfl⟩
    · constructor
      · intro hr
        simp at hr
      · rintro ⟨d, hd, -⟩
        cases hd
    · intro hr
      simp at hr
    · intro _
      exact ⟨rfl, rfl⟩
  | some device =>
    by_cases ha : device.approved = some false
    · rw [handleData_login_denied h hg ha]
      refine ⟨?_, ?_, ?_, rfl, rfl⟩
      · constructor
        · intro hr
          simp at hr
        · rintro ⟨d, hd, hne⟩
          simp only [Option.some.injEq] at hd
          subst hd
          exact absurd ha hne
      · intro hr
        simp at hr
      · intro _
        exact ⟨rfl, rfl⟩
    · rw [handleData_login_ok h hg ha]
      refine ⟨?_, ?_, ?_, rfl, rfl⟩
      · constructor
        · intro _
          exact ⟨device, rfl, ha⟩
        · intro _
          rfl
      · intro _
        exact ⟨rfl, rfl⟩
      · intro hr
        exact absurd rfl hr

/-- C3 (witness for the amended theorem): instantiated on the concrete
login frame `loginOnes` against `storeNoApproved`. -/
theorem c3_login_rejects_only_explicit_false_witness :
    ((handleData storeNoApproved freshSession loginOnes).reply = some [1] ↔
      ∃ d, storeNoApproved imeiOnes = some d ∧ d.approved ≠ some false) ∧
    ((handleData storeNoApproved freshSession loginOnes).reply = some [1] →
      (handleData storeNoApproved freshSession loginOnes).closed = false ∧
      (handleData storeNoApproved freshSession loginOnes).st =
        { freshSession with deviceIMEI := some imeiOnes }) ∧
    ((handleData storeNoApproved freshSession loginOnes).reply ≠ some [1] →
      (handleData storeNoApproved freshSession loginOnes).reply = some [0] ∧
      (handleData storeNoApproved freshSession loginOnes).closed = true) ∧
    (handleData storeNoApproved freshSession loginOnes).savedRecords = none ∧
    (handleData storeNoApproved freshSession loginOnes).savedRaw = none :=
  c3_login_rejects_only_explicit_false storeNoApproved freshSession loginOnes
    imeiOnes (by decide)

/-! ## The analyzer: trip segmentation and driver behavior

Embeds the `GET /devices/:imei/trips` loop and
`calculateDriverBehavior` from the server's API module (the version in
`src/server/db.js`).  A stored record is a Mongo document built by
`buildRecordDoc`; only the named projections the analyzer reads are
modelled.  Timestamps are the millisecond values of the stored ISO
strings (`new Date(ts).getTime()`), and the `findIndex` comparison on
ISO strings is millisecond equality (the ISO rendering is injective). -/

structure GpsInfo where
  latitude : ℚ
  longitude : ℚ
  altitude : Int
  angle : Int
  satellites : Int
  speed : Int
  deriving DecidableEq, Repr

structure StoredRecord where
  timestamp : Int
  gps : GpsInfo
  ignition : Option Int
  movement : Option Int
  obdEngineRpm : Option Int
  obdVehicleSpeed : Option Int
  totalOdometer : Option Int
  fuelUsedGps : Option Int
  accelerometerX : Option Int
  accelerometerY : Option Int
  deriving DecidableEq, Repr

/-- JavaScript `a || d` on a number that may be absent: `a` is taken
unless it is `undefined` or `0`. -/
def jsOrInt (o : Option Int) (d : Int) : Int :=
  match o with
  | some v => if v = 0 then d else v
  | none => d

/-- `r.obdVehicleSpeed || r.gps?.speed || 0`. -/
def speedOf (r : StoredRecord) : Int :=
  jsOrInt r.obdVehicleSpeed (jsOrInt (some r.gps.speed) 0)

/-- JavaScript truthiness of a possibly-absent number. -/
def intTruthy : Option Int → Bool
  | some v => v != 0
  | none => false

/-- `r.ignition === 1 || (r.obdEngineRpm && r.obdEngineRpm > 0)`
(a truthy rpm that is positive is exactly a positive rpm). -/
def isEngineOn (r : StoredRecord) : Bool :=
  r.ignition == some 1 ||
    (match r.obdEngineRpm with
     | some v => decide (0 < v)
     | none => false)

/-- Placeholder for the unreachable `tripRecords[0]` / `[len-1]`
accesses on an empty array (the loop only closes non-empty trips). -/
def defaultRec : StoredRecord :=
  { timestamp := 0,
    gps := { latitude := 0, longitude := 0, altitude := 0, angle := 0,
             satellites := 0, speed := 0 },
    ignition := none, movement := none, obdEngineRpm := none,
    obdVehicleSpeed := none, totalOdometer := none, fuelUsedGps := none,
    accelerometerX := none, accelerometerY := none }

/-! ### Driver behavior (`calculateDriverBehavior`) -/

/-- `toSigned16` (the null-guard of the source is irrelevant here: it is
only applied to present values). -/
def toSigned16 (v : Int) : Int := if v > 32767 then v - 65536 else v

/-- Median of a 3-sample window: sort ascending, take the middle. -/
def med3 (a b c : Int) : Int :=
  (List.insertionSort (· ≤ ·) [a, b, c]).getD 1 0

/-- `medianFilter`: 3-sample sliding median, endpoints passed through. -/
def medianFilter (values : List Int) : List Int :=
  if values.length < 3 then values
  else
    [values.getD 0 0] ++
    ((List.range (values.length - 2)).map fun i =>
      med3 (values.getD i 0) (values.getD (i + 1) 0) (values.getD (i + 2) 0)) ++
    [values.getD (values.length - 1) 0]

/-- `!lastEventTime || (currentTime - lastEventTime) > 2000`
(a stored time of `0` is falsy, like `null`). -/
def cooldownOk (last : Option Int) (current : Int) : Bool :=
  match last with
  | none => true
  | some t => t == 0 || decide (current - t > 2000)

/-- State of the event-detection loop (the source also keeps
`prevRecord`, of which only the timestamp is read). -/
structure EvState where
  hardBraking : Nat
  hardAcceleration : Nat
  harshCornering : Nat
  idleSeconds : ℚ
  maxSpeed : Int
  maxRpm : Int
  lastBrakeTime : Option Int
  lastAccelTime : Option Int
  lastCornerTime : Option Int
  prevTimestamp : Option Int
  deriving DecidableEq, Repr

def initEv : EvState :=
  { hardBraking := 0, hardAcceleration := 0, harshCornering := 0,
    idleSeconds := 0, maxSpeed := 0, maxRpm := 0, lastBrakeTime := none,
    lastAccelTime := none, lastCornerTime := none, prevTimestamp := none }

/-- One iteration of the event-detection loop over `tripRecords`. -/
def evStep (accelRecords : List StoredRecord) (xFiltered yFiltered : List Int)
    (s : EvState) (r : StoredRecord) : EvState :=
  let speed := speedOf r
  let rpm := jsOrInt r.obdEngineRpm 0
  let currentTime := r.timestamp
  let ignition := jsOrInt r.ignition 0
  let movement := jsOrInt r.movement 0
  let maxSpeed := if speed > s.maxSpeed then speed else s.maxSpeed
  let maxRpm := if rpm > s.maxRpm then rpm else s.maxRpm
  let deltaSeconds : ℚ :=
    match s.prevTimestamp with
    | none => 5
    | some pt => min (max 1 (((currentTime - pt : ℤ) : ℚ) / 1000)) 60
  let idleSeconds :=
    if ignition = 1 ∧ speed < 3 ∧ movement = 0 then s.idleSeconds + deltaSeconds
    else s.idleSeconds
  match accelRecords.findIdx? fun ar => ar.timestamp == r.timestamp with
  | some idx =>
    if speed ≥ 10 then
      let devX := xFiltered.getD idx 0
      let devY := yFiltered.getD idx 0
      let brakePair :=
        if devX < -150 ∧ cooldownOk s.lastBrakeTime currentTime then
          (s.hardBraking + 1, some currentTime)
        else (s.hardBraking, s.lastBrakeTime)
      let accelPair :=
        if devX > 200 ∧ cooldownOk s.lastAccelTime currentTime then
          (s.hardAcceleration + 1, some currentTime)
        else (s.hardAcceleration, s.lastAccelTime)
      let cornerPair :=
        if |devY| > 150 ∧ speed ≥ 20 ∧ cooldownOk s.lastCornerTime currentTime then
          (s.harshCornering + 1, some currentTime)
        else (s.harshCornering, s.lastCornerTime)
      { hardBraking := brakePair.1, hardAcceleration := accelPair.1,
        harshCornering := cornerPair.1, idleSeconds := idleSeconds,
        maxSpeed := maxSpeed, maxRpm := maxRpm,
        lastBrakeTime := brakePair.2, lastAccelTime := accelPair.2,
        lastCornerTime := cornerPair.2, prevTimestamp := some currentTime }
    else
      { s with idleSeconds := idleSeconds, maxSpeed := maxSpeed,
               maxRpm := maxRpm, prevTimestamp := some currentTime }
  | none =>
    { s with idleSeconds := idleSeconds, maxSpeed := maxSpeed,
             maxRpm := maxRpm, prevTimestamp := some currentTime }

/-- The scoring block of `calculateDriverBehavior` (STEP 4), from the
event counts and the trip duration. -/
structure ScoringOut where
  rawBrake : Nat
  rawAccel : Nat
  rawCorner : Nat
  totalRawPenalty : Nat
  durationFactor : ℚ
  severeEvents : Nat
  normalizedPenalty : ℚ
  driverScore : ℤ
  deriving DecidableEq, Repr

def behaviorScoring (hardBraking hardAcceleration harshCornering : Nat)
    (tripDurationMinutes : ℤ) : ScoringOut :=
  let durationFactor : ℚ := min 6 (max 1 ((tripDurationMinutes : ℚ) / 10))
  let rawBrake := min 25 (hardBraking * 4)
  let rawAccel := min 20 (hardAcceleration * 2)
  let rawCorner := min 15 (harshCornering * 3)
  let totalRawPenalty := rawBrake + rawAccel + rawCorner
  let severeEvents := hardBraking + harshCornering
  let normalizedPenalty : ℚ :=
    max ((totalRawPenalty : ℚ) / durationFactor)
      (if severeEvents > 0 then 3 else 0)
  let driverScore : ℤ := max 0 (min 100 (jsRound (100 - normalizedPenalty)))
  { rawBrake := rawBrake, rawAccel := rawAccel, rawCorner := rawCorner,
    totalRawPenalty := totalRawPenalty, durationFactor := durationFactor,
    severeEvents := severeEvents, normalizedPenalty := normalizedPenalty,
    driverScore := driverScore }

inductive ConfLevel where
  | high
  | medium
  | low
  deriving DecidableEq, Repr

inductive ConfReason where
  | poorGnss
  | lowAccelCoverage
  | shortTrip
  | distanceEstimated
  deriving DecidableEq, Repr

/-- The object `calculateDriverBehavior` returns (rounded display copies
of rational quantities keep the `Rounded` suffix). -/
structure Behavior where
  score : ℤ
  driverScore : ℤ
  efficiencyScore : ℤ
  perfectTrip : Bool
  confidenceLevel : ConfLevel
  confidenceReasons : List ConfReason
  accelCoveragePct : ℤ
  avgSatellitesRounded : ℚ
  hardBraking : Nat
  hardAcceleration : Nat
  harshCornering : Nat
  idleMinutes : ℤ
  rawBrake : Nat
  rawAccel : Nat
  rawCorner : Nat
  totalRawPenalty : Nat
  normalizedRounded : ℚ
  durationFactorRounded : ℚ
  severeEvents : Nat
  idlePenalty : ℤ
  maxSpeed : Int
  maxRpm : Int
  baselineX : ℤ
  baselineY : ℤ
  recordsWithAccel : Nat
  totalRecords : Nat
  tripDurationMinutes : ℤ
  deriving DecidableEq, Repr

/-- The body of `calculateDriverBehavior` past its minimum-data guard
(factored out so the guard can be reasoned about separately; the
`accelRecords` filter is recomputed, which is identical for the pure
filter). -/
def behaviorOf (tripRecords : List StoredRecord) : Behavior :=
  let accelRecords := tripRecords.filter fun r =>
    r.accelerometerX.isSome && r.accelerometerY.isSome
  let stationaryRecords := tripRecords.filter fun r =>
    decide (speedOf r < 3) && r.accelerometerX.isSome && r.accelerometerY.isSome
  let baselineX : ℤ :=
    if stationaryRecords.length ≥ 3 then
      let xValues := List.insertionSort (· ≤ ·)
        (stationaryRecords.map fun r => toSigned16 (r.accelerometerX.getD 0))
      xValues.getD (xValues.length / 2) 0
    else
      let firstRecords := accelRecords.take 5
      jsRound ((((firstRecords.map fun r =>
        toSigned16 (r.accelerometerX.getD 0)).sum : ℤ) : ℚ) / firstRecords.length)
  let baselineY : ℤ :=
    if stationaryRecords.length ≥ 3 then
      let yValues := List.insertionSort (· ≤ ·)
        (stationaryRecords.map fun r => toSigned16 (r.accelerometerY.getD 0))
      yValues.getD (yValues.length / 2) 0
    else
      let firstRecords := accelRecords.take 5
      jsRound ((((firstRecords.map fun r =>
        toSigned16 (r.accelerometerY.getD 0)).sum : ℤ) : ℚ) / firstRecords.length)
  let xRaw := accelRecords.map fun r => toSigned16 (r.accelerometerX.getD 0) - baselineX
  let yRaw := accelRecords.map fun r => toSigned16 (r.accelerometerY.getD 0) - baselineY
  let xFiltered := medianFilter xRaw
  let yFiltered := medianFilter yRaw
  let ev := tripRecords.foldl (evStep accelRecords xFiltered yFiltered) initEv
  let tripStart := (tripRecords.headD defaultRec).timestamp
  let tripEnd := (tripRecords.getLastD defaultRec).timestamp
  let tripDurationMinutes : ℤ := jsRound (((tripEnd - tripStart : ℤ) : ℚ) / 60000)
  let sc := behaviorScoring ev.hardBraking ev.hardAcceleration ev.harshCornering
    tripDurationMinutes
  let idleMinutes : ℤ := jsRound (ev.idleSeconds / 60)
  let idlePenalty : ℤ := min 30 (Int.fdiv idleMinutes 5 * 2)
  let efficiencyScore : ℤ := max 0 (min 100 (100 - idlePenalty))
  let gpsRecords := tripRecords.filter fun r => decide (r.gps.satellites > 0)
  let avgSatellites : ℚ :=
    if gpsRecords.length > 0 then
      ((gpsRecords.map fun r => r.gps.satellites).sum : ℤ) / (gpsRecords.length : ℚ)
    else 0
  let accelCoverage : ℚ := (accelRecords.length : ℚ) / (tripRecords.length : ℚ)
  let startOdo := (tripRecords.headD defaultRec).totalOdometer
  let endOdo := (tripRecords.getLastD defaultRec).totalOdometer
  let confidenceReasons : List ConfReason :=
    (if avgSatellites < 3 then [ConfReason.poorGnss] else []) ++
    (if accelCoverage < 3/10 then [ConfReason.lowAccelCoverage] else []) ++
    (if tripDurationMinutes < 5 then [ConfReason.shortTrip] else []) ++
    (if intTruthy startOdo && intTruthy endOdo && startOdo == endOdo then
      [ConfReason.distanceEstimated] else [])
  let scoreAffectingReasons := confidenceReasons.filter (· ≠ ConfReason.shortTrip)
  let confidenceLevel : ConfLevel :=
    if scoreAffectingReasons.length ≥ 2 then .low
    else if scoreAffectingReasons.length = 1 then .medium
    else .high
  let perfectTrip : Bool :=
    decide (sc.totalRawPenalty = 0 ∧ confidenceLevel = .high ∧
      tripDurationMinutes ≥ 5)
  let finalDriverScore : ℤ :=
    if confidenceLevel = .low ∧ sc.driverScore > 95 then 95 else sc.driverScore
  { score := finalDriverScore, driverScore := finalDriverScore,
      efficiencyScore := efficiencyScore, perfectTrip := perfectTrip,
      confidenceLevel := confidenceLevel,
      confidenceReasons := confidenceReasons,
      accelCoveragePct := jsRound (accelCoverage * 100),
      avgSatellitesRounded := (jsRound (avgSatellites * 10) : ℚ) / 10,
      hardBraking := ev.hardBraking, hardAcceleration := ev.hardAcceleration,
      harshCornering := ev.harshCornering, idleMinutes := idleMinutes,
      rawBrake := sc.rawBrake, rawAccel := sc.rawAccel,
      rawCorner := sc.rawCorner, totalRawPenalty := sc.totalRawPenalty,
      normalizedRounded := (jsRound (sc.normalizedPenalty * 10) : ℚ) / 10,
      durationFactorRounded := (jsRound (sc.durationFactor * 10) : ℚ) / 10,
      severeEvents := sc.severeEvents, idlePenalty := idlePenalty,
      maxSpeed := ev.maxSpeed, maxRpm := ev.maxRpm,
      baselineX := baselineX, baselineY := baselineY,
      recordsWithAccel := accelRecords.length,
      totalRecords := tripRecords.length,
      tripDurationMinutes := tripDurationMinutes }

/-- `calculateDriverBehavior`: returns `null` below 5 accelerometer
records, otherwise the analysis of `behaviorOf`. -/
def calculateDriverBehavior (tripRecords : List StoredRecord) : Option Behavior :=
  if (tripRecords.filter fun r =>
      r.accelerometerX.isSome && r.accelerometerY.isSome).length < 5 then none
  else some (behaviorOf tripRecords)

/-! ### Trip segmentation (the `/devices/:imei/trips` loop) -/

structure OpenTrip where
  startTime : Int
  startOdometer : Option Int
  deriving DecidableEq, Repr

/-- A synthesized trip (the `"Hh Mm"` rendering of `durationMinutes` is
omitted as a pure formatting of that field). -/
structure TripOut where
  startTime : Int
  startOdometer : Option Int
  endTime : Int
  endOdometer : Option Int
  distanceMeters : Option Int
  distanceKm : Option ℚ
  distanceEstimated : Bool
  durationMinutes : Int
  avgSpeedTotal : Option ℚ
  maxSpeed : Int
  avgSpeedMoving : Option ℚ
  fuelUsedMl : Option Int
  fuelUsedLiters : Option ℚ
  fuelPer100km : Option ℚ
  fuelFromGps : Bool
  startPosition : GpsInfo
  endPosition : GpsInfo
  driverBehavior : Option Behavior
  deriving DecidableEq, Repr

/-- The speed × Δt fallback integral over successive records. -/
def estDistance (l : List StoredRecord) : ℚ :=
  ((l.zip l.tail).map fun pr =>
    ((speedOf pr.1 : ℤ) : ℚ) / 3.6 *
      (((pr.2.timestamp - pr.1.timestamp : ℤ) : ℚ) / 1000)).sum

/-- Everything the loop computes when a trip closes, from the open-trip
header and the collected `tripRecords`. -/
def closeTrip (ot : OpenTrip) (tripRecords : List StoredRecord) : TripOut :=
  let lastOn := tripRecords.getLastD defaultRec
  let endTime := lastOn.timestamp
  let endOdometer := lastOn.totalOdometer
  let dm0 : Option Int :=
    if intTruthy ot.startOdometer && intTruthy endOdometer then
      some (endOdometer.getD 0 - ot.startOdometer.getD 0)
    else none
  let dk0 : Option ℚ := dm0.map fun dm => (jsRound ((dm : ℚ) / 100) : ℚ) / 10
  let est : ℚ := estDistance tripRecords
  let estimated : Bool := decide ((dm0 = some 0 ∨ dm0 = none) ∧ est > 0)
  let dm : Option Int := if estimated then some (jsRound est) else dm0
  let dk : Option ℚ :=
    if estimated then some ((jsRound (est / 100) : ℚ) / 10) else dk0
  let durationMs : Int := endTime - ot.startTime
  let totalMinutes : Int := jsRound ((durationMs : ℚ) / 60000)
  let avgSpeedTotal : Option ℚ :=
    if intTruthy dm && decide (totalMinutes > 0) then
      some ((jsRound (dk.getD 0 / ((totalMinutes : ℚ) / 60) * 10) : ℚ) / 10)
    else none
  let posSpeeds := (tripRecords.map speedOf).filter fun s => decide (s > 0)
  let maxSpeed := posSpeeds.foldl (fun m s => if s > m then s else m) 0
  let avgSpeedMoving : Option ℚ :=
    if posSpeeds.length > 0 then
      some ((jsRound ((posSpeeds.sum : ℤ) / (posSpeeds.length : ℚ) * 10) : ℚ) / 10)
    else none
  let startFuel := (tripRecords.headD defaultRec).fuelUsedGps
  let endFuel := lastOn.fuelUsedGps
  let fuelTriple : Option Int × Option ℚ × Option ℚ :=
    match startFuel, endFuel with
    | some sf, some ef =>
      let fuelUsedMl := ef - sf
      if (match dk with | some v => decide (v ≥ 2) | none => false) &&
          decide (totalMinutes ≥ 5) && decide (fuelUsedMl > 0) then
        (some fuelUsedMl,
         some ((jsRound ((fuelUsedMl : ℚ) / 10) : ℚ) / 100),
         some ((jsRound (((jsRound ((fuelUsedMl : ℚ) / 10) : ℚ) / 100) /
           dk.getD 0 * 100 * 10) : ℚ) / 10))
      else (none, none, none)
    | _, _ => (none, none, none)
  let validGps := tripRecords.filter fun r => decide (r.gps.satellites > 0)
  let startPosition :=
    if validGps.length > 0 then (validGps.headD defaultRec).gps
    else (tripRecords.headD defaultRec).gps
  let endPosition :=
    if validGps.length > 0 then (validGps.getLastD defaultRec).gps
    else lastOn.gps
  { startTime := ot.startTime, startOdometer := ot.startOdometer,
    endTime := endTime, endOdometer := endOdometer,
    distanceMeters := dm, distanceKm := dk, distanceEstimated := estimated,
    durationMinutes := totalMinutes, avgSpeedTotal := avgSpeedTotal,
    maxSpeed := maxSpeed, avgSpeedMoving := avgSpeedMoving,
    fuelUsedMl := fuelTriple.1, fuelUsedLiters := fuelTriple.2.1,
    fuelPer100km := fuelTriple.2.2,
    fuelFromGps := fuelTriple.1.isSome,
    startPosition := startPosition, endPosition := endPosition,
    driverBehavior := calculateDriverBehavior tripRecords }

/-- `durationMinutes >= 2 || distanceMeters > 100` (an absent
`distanceMeters` fails the comparison). -/
def emitTrip (t : TripOut) : Bool :=
  decide (t.durationMinutes ≥ 2) ||
    (match t.distanceMeters with
     | some dmv => decide (dmv > 100)
     | none => false)

structure TripState where
  trips : List TripOut
  currentTrip : Option OpenTrip
  tripRecords : List StoredRecord
  lastEngineOnTime : Option Int
  deriving DecidableEq, Repr

def initTripState : TripState :=
  { trips := [], currentTrip := none, tripRecords := [],
    lastEngineOnTime := none }

/-- One iteration of the trip-grouping loop.  (When `lastEngineOnTime`
is still `null`, the source's `NaN > 60000` comparison is false, so the
record is simply skipped — modelled by the `none` branch.) -/
def tripStep (s : TripState) (r : StoredRecord) : TripState :=
  let engineOn := isEngineOn r
  match s.currentTrip with
  | none =>
    if engineOn then
      { s with
        currentTrip := some { startTime := r.timestamp,
                              startOdometer := r.totalOdometer },
        tripRecords := [r],
        lastEngineOnTime := some r.timestamp }
    else s
  | some ot =>
    if engineOn then
      { s with tripRecords := s.tripRecords ++ [r],
               lastEngineOnTime := some r.timestamp }
    else
      match s.lastEngineOnTime with
      | none => s
      | some tOn =>
        if r.timestamp - tOn > 60000 then
          let trip := closeTrip ot s.tripRecords
          { s with
            trips := s.trips ++ (if emitTrip trip then [trip] else []),
            currentTrip := none,
            tripRecords := [] }
        else s

/-- The full loop (the endpoint then sorts the result newest-first and
slices it to `limit`, which does not change which trips exist). -/
def tripsOf (records : List StoredRecord) : List TripOut :=
  (records.foldl tripStep initTripState).trips

/-! ### Helper lemmas for the trip loop -/

theorem emitTrip_iff (t : TripOut) :
    emitTrip t = true ↔
      t.durationMinutes ≥ 2 ∨ ∃ dm, t.distanceMeters = some dm ∧ dm > 100 := by
  unfold emitTrip
  cases hdm : t.distanceMeters with
  | none =>
    simp
  | some dmv =>
    simp only [Bool.or_eq_true, decide_eq_true_eq]
    constructor
    · rintro (h | h)
      · exact Or.inl h
      · exact Or.inr ⟨dmv, rfl, h⟩
    · rintro (h | ⟨dm2, hdm2, h2⟩)
      · exact Or.inl h
      · simp only [Option.some.injEq] at hdm2
        subst hdm2
        exact Or.inr h2

/-- Every record the loop has collected for the open trip satisfies the
engine-on predicate (off-records are never appended). -/
theorem tripStep_records_on (s : TripState) (r : StoredRecord)
    (h : ∀ x ∈ s.tripRecords, isEngineOn x = true) :
    ∀ x ∈ (tripStep s r).tripRecords, isEngineOn x = true := by
  cases hc : s.currentTrip with
  | none =>
    by_cases hon : isEngineOn r
    · simp only [tripStep, hc, hon, if_true]
      intro x hx
      simp only [List.mem_singleton] at hx
      subst hx
      exact hon
    · simp only [tripStep, hc, hon, Bool.false_eq_true, if_false]
      exact h
  | some ot =>
    by_cases hon : isEngineOn r
    · simp only [tripStep, hc, hon, if_true]
      intro x hx
      simp only [List.mem_append, List.mem_singleton] at hx
      rcases hx with hx | hx
      · exact h x hx
      · subst hx
        exact hon
    · simp only [tripStep, hc, hon, Bool.false_eq_true, if_false]
      cases hl : s.lastEngineOnTime with
      | none => exact h
      | some tOn =>
        by_cases hgt : r.timestamp - tOn > 60000
        · simp only [hgt, if_true]
          intro x hx
          simp at hx
        · simp only [hgt, if_false]
          exact h

theorem foldl_records_on (recs : List StoredRecord) :
    ∀ s, (∀ x ∈ s.tripRecords, isEngineOn x = true) →
      ∀ x ∈ ((recs.foldl tripStep s).tripRecords), isEngineOn x = true := by
  induction recs with
  | nil => intro s h; exact h
  | cons r rest ih =>
    intro s h
    exact ih (tripStep s r) (tripStep_records_on s r h)

/-! ### Claim theorems for the analyzer -/

/-- Concrete records for the trip-loop claims. -/
def trON1 : StoredRecord :=
  { timestamp := 0,
    gps := { latitude := 0, longitude := 0, altitude := 0, angle := 0,
             satellites := 5, speed := 10 },
    ignition := some 1, movement := none, obdEngineRpm := none,
    obdVehicleSpeed := none, totalOdometer := some 1000, fuelUsedGps := none,
    accelerometerX := none, accelerometerY := none }

/-- An engine-off record 10 s into the trip, with GPS speed 200. -/
def trOFFfast : StoredRecord :=
  { timestamp := 10000,
    gps := { latitude := 0, longitude := 0, altitude := 0, angle := 0,
             satellites := 5, speed := 200 },
    ignition := some 0, movement := none, obdEngineRpm := none,
    obdVehicleSpeed := none, totalOdometer := none, fuelUsedGps := none,
    accelerometerX := none, accelerometerY := none }

def trON2 : StoredRecord :=
  { timestamp := 20000,
    gps := { latitude := 0, longitude := 0, altitude := 0, angle := 0,
             satellites := 5, speed := 10 },
    ignition := some 1, movement := none, obdEngineRpm := none,
    obdVehicleSpeed := none, totalOdometer := some 2000, fuelUsedGps := none,
    accelerometerX := none, accelerometerY := none }

/-- The closing engine-off record, 80 s after the last engine-on one. -/
def trOFFend : StoredRecord :=
  { timestamp := 100000,
    gps := { latitude := 0, longitude := 0, altitude := 0, angle := 0,
             satellites := 5, speed := 0 },
    ignition := some 0, movement := none, obdEngineRpm := none,
    obdVehicleSpeed := none, totalOdometer := none, fuelUsedGps := none,
    accelerometerX := none, accelerometerY := none }

/-- A trip state with one open trip that has collected `trON1`. -/
def openState : TripState :=
  { trips := [], currentTrip := some { startTime := 0, startOdometer := some 1000 },
    tripRecords := [trON1], lastEngineOnTime := some 0 }

/-- C4 (counterexample): in the run `[on, off(speed 200), on, off(+80 s)]`
exactly one trip is emitted and its `maxSpeed` is 10 — the engine-off
record with speed 200, which arrived while the trip was open and within
the 60-second threshold, was left out of the record set the metrics are
computed from, contradicting the claim that such records are appended. -/
theorem c4_off_record_dropped_from_metrics :
    (tripsOf [trON1, trOFFfast, trON2, trOFFend]).map TripOut.maxSpeed = [10] ∧
    (([trON1, trOFFfast].foldl tripStep initTripState).tripRecords = [trON1]) ∧
    isEngineOn trOFFfast = false ∧ speedOf trOFFfast = 200 ∧
    trOFFfast.timestamp - trON1.timestamp ≤ 60000 := by
  refine ⟨?_, ?_, by decide, by decide, by decide⟩
  · norm_num [tripsOf, tripStep, initTripState, closeTrip, emitTrip, isEngineOn,
      speedOf, jsOrInt, intTruthy, estDistance, jsRound, defaultRec,
      calculateDriverBehavior, List.foldl, trON1, trOFFfast, trON2, trOFFend,
      Option.some_ne_none]
  · norm_num [tripStep, initTripState, isEngineOn, List.foldl,
      trON1, trOFFfast]

/-- C4 (amended): once a trip is open, an engine-ON record is appended
to the trip's record set (and the trip stays open); an engine-off record
within the 60-second quiet threshold keeps the trip open but is NOT
appended — the metrics are computed from the opening record and the
engine-on records only. -/
theorem c4_engine_off_records_excluded (s : TripState) (ot : OpenTrip)
    (r : StoredRecord) (hopen : s.currentTrip = some ot) :
    (isEngineOn r = true →
      (tripStep s r).tripRecords = s.tripRecords ++ [r] ∧
      (tripStep s r).currentTrip = some ot) ∧
    (∀ tOn, isEngineOn r = false → s.lastEngineOnTime = some tOn →
      r.timestamp - tOn ≤ 60000 →
      (tripStep s r).tripRecords = s.tripRecords ∧
      (tripStep s r).currentTrip = some ot ∧
      (tripStep s r).trips = s.trips) := by
  constructor
  · intro hon
    refine ⟨?_, ?_⟩
    · simp only [tripStep, hopen, hon, if_true]
    · simp only [tripStep, hopen, hon, if_true]
  · intro tOn hoff htOn hle
    have hstep : tripStep s r = s := by
      simp only [tripStep, hopen, hoff, htOn, Bool.false_eq_true, if_false]
      rw [if_neg (by omega)]
    rw [hstep]
    exact ⟨rfl, hopen, rfl⟩

/-- C4 (witness for the amended theorem): instantiated on `openState`
with the engine-on record `trON2` and the engine-off record `trOFFfast`. -/
theorem c4_engine_off_records_excluded_witness :
    ((tripStep openState trON2).tripRecords = openState.tripRecords ++ [trON2] ∧
     (tripStep openState trON2).currentTrip =
       some { startTime := 0, startOdometer := some 1000 }) ∧
    ((tripStep openState trOFFfast).tripRecords = openState.tripRecords ∧
     (tripStep openState trOFFfast).currentTrip =
       some { startTime := 0, startOdometer := some 1000 } ∧
     (tripStep openState trOFFfast).trips = openState.trips) := by
  constructor
  · exact (c4_engine_off_records_excluded openState
      { startTime := 0, startOdometer := some 1000 } trON2 rfl).1 (by decide)
  · exact (c4_engine_off_records_excluded openState
      { startTime := 0, startOdometer := some 1000 } trOFFfast rfl).2 0
      (by decide) rfl (by decide)

/-- C5: with a trip open, the loop closes it exactly when an engine-off
record arrives more than 60 s after the last engine-on timestamp; the
closed trip's `endTime` and `endOdometer` come from the last collected
record (which is an engine-on record, every collected record being
engine-on), and the trip is added to the output if and only if
`durationMinutes ≥ 2` or `distanceMeters > 100` — otherwise the output
is unchanged.  A step that does not close never changes the output. -/
theorem c5_trip_close_and_emission (s : TripState) (ot : OpenTrip)
    (r : StoredRecord) (tOn : Int) (hopen : s.currentTrip = some ot)
    (htOn : s.lastEngineOnTime = some tOn) :
    ((tripStep s r).currentTrip = none ↔
      isEngineOn r = false ∧ r.timestamp - tOn > 60000) ∧
    (isEngineOn r = false → r.timestamp - tOn > 60000 →
      (closeTrip ot s.tripRecords).endTime =
        (s.tripRecords.getLastD defaultRec).timestamp ∧
      (closeTrip ot s.tripRecords).endOdometer =
        (s.tripRecords.getLastD defaultRec).totalOdometer ∧
      ((tripStep s r).trips = s.trips ++ [closeTrip ot s.tripRecords] ↔
        ((closeTrip ot s.tripRecords).durationMinutes ≥ 2 ∨
         ∃ dm, (closeTrip ot s.tripRecords).distanceMeters = some dm ∧ dm > 100)) ∧
      ((tripStep s r).trips = s.trips ↔
        ¬((closeTrip ot s.tripRecords).durationMinutes ≥ 2 ∨
          ∃ dm, (closeTrip ot s.tripRecords).distanceMeters = some dm ∧ dm > 100))) ∧
    (¬(isEngineOn r = false ∧ r.timestamp - tOn > 60000) →
      (tripStep s r).trips = s.trips) ∧
    (∀ recs : List StoredRecord,
      ∀ x ∈ ((recs.foldl tripStep initTripState).tripRecords),
      isEngineOn x = true) := by
  have hkeep_on : isEngineOn r = true →
      tripStep s r = { s with tripRecords := s.tripRecords ++ [r],
                              lastEngineOnTime := some r.timestamp } := by
    intro hon
    simp only [tripStep, hopen, hon, if_true]
  have hclose : isEngineOn r = false → r.timestamp - tOn > 60000 →
      tripStep s r =
        { s with
          trips := s.trips ++
            (if emitTrip (closeTrip ot s.tripRecords) then
              [closeTrip ot s.tripRecords] else []),
          currentTrip := none, tripRecords := [] } := by
    intro hoff hgt
    simp only [tripStep, hopen, hoff, htOn, Bool.false_eq_true, if_false,
      hgt, if_true]
  have hkeep_off : isEngineOn r = false → ¬(r.timestamp - tOn > 60000) →
      tripStep s r = s := by
    intro hoff hgt
    simp only [tripStep, hopen, hoff, htOn, Bool.false_eq_true, if_false, hgt]
  refine ⟨?_, ?_, ?_, ?_⟩
  · cases hone : isEngineOn r with
    | true =>
      rw [hkeep_on hone]
      simp [hopen]
    | false =>
      by_cases hgt : r.timestamp - tOn > 60000
      · rw [hclose hone hgt]
        simp [hgt]
      · rw [hkeep_off hone hgt]
        rw [hopen]
        simp [hgt]
  · intro hoff hgt
    refine ⟨rfl, rfl, ?_, ?_⟩
    · rw [hclose hoff hgt]
      dsimp only
      by_cases he : emitTrip (closeTrip ot s.tripRecords) = true
      · rw [if_pos he]
        exact iff_of_true rfl ((emitTrip_iff _).mp he)
      · rw [if_neg he, List.append_nil]
        refine iff_of_false ?_ (fun hcond => he ((emitTrip_iff _).mpr hcond))
        intro hEq
        have hlen := congrArg List.length hEq
        simp at hlen
    · rw [hclose hoff hgt]
      dsimp only
      by_cases he : emitTrip (closeTrip ot s.tripRecords) = true
      · rw [if_pos he]
        refine iff_of_false ?_ (not_not_intro ((emitTrip_iff _).mp he))
        intro hEq
        have hlen := congrArg List.length hEq
        simp at hlen
      · rw [if_neg he, List.append_nil]
        exact iff_of_true rfl (fun hcond => he ((emitTrip_iff _).mpr hcond))
  · intro hnc
    cases hone : isEngineOn r with
    | true =>
      rw [hkeep_on hone]
    | false =>
      by_cases hgt : r.timestamp - tOn > 60000
      · exact absurd ⟨hone, hgt⟩ hnc
      · rw [hkeep_off hone hgt]
  · intro recs
    exact foldl_records_on recs initTripState
      (by intro x hx; simp [initTripState] at hx)

/-- C5 (witness): instantiated on `openState` and the closing record
`trOFFend` (80 s after the last engine-on record). -/
theorem c5_trip_close_and_emission_witness :
    ((tripStep openState trOFFend).currentTrip = none ↔
      isEngineOn trOFFend = false ∧ trOFFend.timestamp - 0 > 60000) ∧
    (isEngineOn trOFFend = false → trOFFend.timestamp - 0 > 60000 →
      (closeTrip { startTime := 0, startOdometer := some 1000 }
          openState.tripRecords).endTime =
        (openState.tripRecords.getLastD defaultRec).timestamp ∧
      (closeTrip { startTime := 0, startOdometer := some 1000 }
          openState.tripRecords).endOdometer =
        (openState.tripRecords.getLastD defaultRec).totalOdometer ∧
      ((tripStep openState trOFFend).trips = openState.trips ++
          [closeTrip { startTime := 0, startOdometer := some 1000 }
            openState.tripRecords] ↔
        ((closeTrip { startTime := 0, startOdometer := some 1000 }
            openState.tripRecords).durationMinutes ≥ 2 ∨
         ∃ dm, (closeTrip { startTime := 0, startOdometer := some 1000 }
            openState.tripRecords).distanceMeters = some dm ∧ dm > 100)) ∧
      ((tripStep openState trOFFend).trips = openState.trips ↔
        ¬((closeTrip { startTime := 0, startOdometer := some 1000 }
            openState.tripRecords).durationMinutes ≥ 2 ∨
          ∃ dm, (closeTrip { startTime := 0, startOdometer := some 1000 }
            openState.tripRecords).distanceMeters = some dm ∧ dm > 100))) ∧
    (¬(isEngineOn trOFFend = false ∧ trOFFend.timestamp - 0 > 60000) →
      (tripStep openState trOFFend).trips = openState.trips) ∧
    (∀ recs : List StoredRecord,
      ∀ x ∈ ((recs.foldl tripStep initTripState).tripRecords),
      isEngineOn x = true) :=
  c5_trip_close_and_emission openState
    { startTime := 0, startOdometer := some 1000 } trOFFend 0 rfl rfl

/-! ### Driver-score formula (C6) and score bounds (C7) -/

/-- The claim's clamp, written from its words. -/
def specClampQ (x lo hi : ℚ) : ℚ := max lo (min hi x)

def specClampZ (x lo hi : ℤ) : ℤ := max lo (min hi x)

theorem specClampQ_eq (x : ℚ) : min 6 (max 1 x) = specClampQ x 1 6 := by
  unfold specClampQ
  rw [min_max_distrib_left]
  norm_num

/-- C6: the scoring block computes exactly the claimed formulas: capped
raw penalties `min(25, brake·4) + min(20, accel·2) + min(15, corner·3)`;
`durationFactor = clamp(minutes/10, 1, 6)`; `normalized =
max(totalRaw/durationFactor, 3 if brake+corner > 0 else 0)`;
`driverScore = clamp(round(100 − normalized), 0, 100)`. -/
theorem c6_driver_score_formula (b a c : Nat) (d : ℤ) :
    (behaviorScoring b a c d).rawBrake = min 25 (b * 4) ∧
    (behaviorScoring b a c d).rawAccel = min 20 (a * 2) ∧
    (behaviorScoring b a c d).rawCorner = min 15 (c * 3) ∧
    (behaviorScoring b a c d).totalRawPenalty =
      min 25 (b * 4) + min 20 (a * 2) + min 15 (c * 3) ∧
    (behaviorScoring b a c d).durationFactor = specClampQ ((d : ℚ) / 10) 1 6 ∧
    (behaviorScoring b a c d).severeEvents = b + c ∧
    (behaviorScoring b a c d).normalizedPenalty =
      max (((behaviorScoring b a c d).totalRawPenalty : ℚ) /
          (behaviorScoring b a c d).durationFactor)
        (if b + c > 0 then 3 else 0) ∧
    (behaviorScoring b a c d).driverScore =
      specClampZ (jsRound (100 - (behaviorScoring b a c d).normalizedPenalty))
        0 100 := by
  refine ⟨rfl, rfl, rfl, rfl, specClampQ_eq _, rfl, rfl, ?_⟩
  unfold behaviorScoring specClampZ
  rfl

/-- The pre-damping driver score lies in `[0, 100]`. -/
theorem behaviorScoring_score_bounds (b a c : Nat) (d : ℤ) :
    0 ≤ (behaviorScoring b a c d).driverScore ∧
    (behaviorScoring b a c d).driverScore ≤ 100 := by
  unfold behaviorScoring
  dsimp only
  constructor
  · exact le_max_left 0 _
  · exact max_le (by norm_num) (min_le_left _ _)

/-- Score bounds of any result assembled the way `behaviorOf` assembles
one: damped driver score from a scoring block, efficiency score clamped
from the idle penalty. -/
theorem behavior_assembled_bounds (r : Behavior) (sc : ScoringOut)
    (lvl : ConfLevel) (ip : ℤ)
    (hr1 : r.driverScore =
      if lvl = ConfLevel.low ∧ sc.driverScore > 95 then 95 else sc.driverScore)
    (hr2 : r.efficiencyScore = max 0 (min 100 (100 - ip)))
    (hr3 : r.confidenceLevel = lvl)
    (hsc : 0 ≤ sc.driverScore ∧ sc.driverScore ≤ 100) :
    0 ≤ r.driverScore ∧ r.driverScore ≤ 100 ∧
    0 ≤ r.efficiencyScore ∧ r.efficiencyScore ≤ 100 ∧
    (r.confidenceLevel = ConfLevel.low → r.driverScore ≤ 95) := by
  rw [hr1, hr2, hr3]
  refine ⟨?_, ?_, ?_, ?_, ?_⟩
  · split_ifs
    · norm_num
    · exact hsc.1
  · split_ifs
    · norm_num
    · exact hsc.2
  · exact le_max_left 0 _
  · exact max_le (by norm_num) (min_le_left _ _)
  · intro hlow
    split_ifs with hc
    · norm_num
    · rcases not_and_or.mp hc with h1 | h2
      · exact absurd hlow h1
      · omega

set_option maxHeartbeats 1000000 in
/-- C7: whenever `calculateDriverBehavior` returns a result, its
`driverScore` and `efficiencyScore` lie in `[0, 100]`, and when the
confidence level is low, `driverScore` is at most 95. -/
theorem c7_scores_bounded (recs : List StoredRecord) (r : Behavior)
    (h : calculateDriverBehavior recs = some r) :
    0 ≤ r.driverScore ∧ r.driverScore ≤ 100 ∧
    0 ≤ r.efficiencyScore ∧ r.efficiencyScore ≤ 100 ∧
    (r.confidenceLevel = ConfLevel.low → r.driverScore ≤ 95) := by
  unfold calculateDriverBehavior at h
  split_ifs at h with h5
  simp only [Option.some.injEq] at h
  subst h
  exact behavior_assembled_bounds _ _ _ _ rfl rfl rfl
    (behaviorScoring_score_bounds _ _ _ _)

/-- Five records bearing accelerometer data, ignition off, one second
apart. -/
def accRec (t : Int) : StoredRecord :=
  { timestamp := t,
    gps := { latitude := 0, longitude := 0, altitude := 0, angle := 0,
             satellites := 5, speed := 0 },
    ignition := some 0, movement := none, obdEngineRpm := none,
    obdVehicleSpeed := none, totalOdometer := none, fuelUsedGps := none,
    accelerometerX := some 0, accelerometerY := some 0 }

def c7recs : List StoredRecord :=
  [accRec 0, accRec 1000, accRec 2000, accRec 3000, accRec 4000]

/-- The result `calculateDriverBehavior` computes for `c7recs`. -/
def c7result : Behavior :=
  { score := 100, driverScore := 100, efficiencyScore := 100,
    perfectTrip := false, confidenceLevel := .high,
    confidenceReasons := [.shortTrip], accelCoveragePct := 100,
    avgSatellitesRounded := 5, hardBraking := 0, hardAcceleration := 0,
    harshCornering := 0, idleMinutes := 0, rawBrake := 0, rawAccel := 0,
    rawCorner := 0, totalRawPenalty := 0, normalizedRounded := 0,
    durationFactorRounded := 1, severeEvents := 0, idlePenalty := 0,
    maxSpeed := 0, maxRpm := 0, baselineX := 0, baselineY := 0,
    recordsWithAccel := 5, totalRecords := 5, tripDurationMinutes := 0 }

set_option maxHeartbeats 1000000 in
/-- C7 (witness): instantiated on the concrete record list `c7recs`. -/
theorem c7_scores_bounded_witness :
    calculateDriverBehavior c7recs = some c7result ∧
    (0 ≤ c7result.driverScore ∧ c7result.driverScore ≤ 100 ∧
     0 ≤ c7result.efficiencyScore ∧ c7result.efficiencyScore ≤ 100 ∧
     (c7result.confidenceLevel = ConfLevel.low → c7result.driverScore ≤ 95)) := by
  have hcalc : calculateDriverBehavior c7recs = some c7result := by
    norm_num [calculateDriverBehavior, behaviorOf, c7recs, c7result, accRec,
      speedOf, jsOrInt, toSigned16, medianFilter, med3, evStep, initEv,
      behaviorScoring, jsRound, cooldownOk, defaultRec, intTruthy, List.foldl,
      List.insertionSort, List.orderedInsert, List.findIdx?]
    decide
  exact ⟨hcalc, c7_scores_bounded c7recs c7result hcalc⟩

end Telem
